import Mathlib

/-!
Verification of the `PlatformProductOrderInfluencer` lifecycle of the media-back
repository: a shallow embedding of the status state machine operated by
`CampaignService`, `SurveysService` (src/src/core/campaign/campaign.service.ts,
src/src/core/surveys/entities/answer.entity.ts) and
`PlatformProductOrderService.addInfluencers`
(src/src/core/platform-product/platform-product-order.service.ts).

The database is modelled as explicit lists of rows; each service method becomes
a function `... → DB → Res α` where `Res` carries the outcome together with the
observable (durable) database state after the call.  Prisma calls are embedded
as follows: `findUniqueOrThrow` is an association lookup whose `none` branch
models the uncaught throw; `update({where:{id}})` rewrites the row with that id;
`updateMany` rewrites all rows matching the filter and returns the match count;
`upsert` updates the row with the matching compound key or appends a fresh row.
A batch of independent per-row `update` calls issued through `Promise.all` is
modelled as one pass over the table (row ids are unique), and the two disjoint
`updateMany` calls of `removeInfluencers` are applied in sequence, which agrees
with their concurrent execution because their filters are disjoint and neither
write makes a row match the other filter.
-/

namespace MediaBack

/-- Modelled from the spec: the enum `ProductOrderInfluencerStatus` is declared
outside `src/` (only its uses appear there).  §4 fixes the main-path order
Added(0) → Invited(1) → Matching(2) → ToBeSubmitted/ToBeAnswered →
ToBeApproved → Approved / NotApproved → ToBePaid → Paid, with the side-branch
terminal states Declined, NotSelected, Removed, Withdrawn placed after the main
path.  Guard logic only compares with `<`/`=` against `Invited`, so the exact
numeric values of the later states are irrelevant to the claims. -/
inductive PStatus
  | Added
  | Invited
  | Matching
  | ToBeSubmitted
  | ToBeAnswered
  | ToBeApproved
  | Approved
  | NotApproved
  | ToBePaid
  | Paid
  | Declined
  | NotSelected
  | Removed
  | Withdrawn
deriving DecidableEq, Repr

/-- Modelled from the spec: ordinal of `ProductOrderInfluencerStatus`
(§4: "ordinal, comparison-sensitive — later states are numerically greater"). -/
def PStatus.toNat : PStatus → Nat
  | .Added => 0
  | .Invited => 1
  | .Matching => 2
  | .ToBeSubmitted => 3
  | .ToBeAnswered => 4
  | .ToBeApproved => 5
  | .Approved => 6
  | .NotApproved => 7
  | .ToBePaid => 8
  | .Paid => 9
  | .Declined => 10
  | .NotSelected => 11
  | .Removed => 12
  | .Withdrawn => 13

/-- Partial inverse of `PStatus.toNat`; used only to model the untyped numeric
assignment `status: user.status` in `PlatformProductOrderService.addInfluencers`. -/
def PStatus.fromOrdinal : Nat → PStatus
  | 0 => .Added
  | 1 => .Invited
  | 2 => .Matching
  | 3 => .ToBeSubmitted
  | 4 => .ToBeAnswered
  | 5 => .ToBeApproved
  | 6 => .Approved
  | 7 => .NotApproved
  | 8 => .ToBePaid
  | 9 => .Paid
  | 10 => .Declined
  | 11 => .NotSelected
  | 12 => .Removed
  | _ => .Withdrawn

/-- Modelled from the spec: the coarse order-level `Status` enum is declared
outside `src/`; §3/§4 fix InPreparation → OnGoing → Finished → Archived as an
ordinal enumeration compared with `>=`/`<`/`>`. -/
inductive OStatus
  | InPreparation
  | OnGoing
  | Finished
  | Archived
deriving DecidableEq, Repr

/-- Modelled from the spec: ordinal of the coarse order status. -/
def OStatus.toNat : OStatus → Nat
  | .InPreparation => 0
  | .OnGoing => 1
  | .Finished => 2
  | .Archived => 3

/-- Row of `influencerCampaignAmounts` / `influencerSurveyAmounts`:
a desired amount pre-declared for one post/survey type. -/
structure AmountRow where
  typ : Nat
  desiredAmount : Int
deriving DecidableEq, Repr

/-- Row of the `influencer` table (the fields the services select). -/
structure InfluencerRow where
  id : Nat
  userId : Nat
  campaignAmounts : List AmountRow
  surveyAmounts : List AmountRow
deriving DecidableEq, Repr

/-- Row of the `user` table; `influencer` is `none` for non-influencer users.
`ustatus` is the user's own status field (a plain number here; it leaks into
`PlatformProductOrderService.addInfluencers`). -/
structure UserRow where
  id : Nat
  currency : Nat
  ustatus : Nat
  influencer : Option InfluencerRow
deriving DecidableEq, Repr

/-- Row of `platformProductOrderInfluencer`.  `influencerUserId` denormalises
the `influencer.userId` join column used by the `influencer: { userId: { in } }`
filters of confirm/approve/disapprove. -/
structure POI where
  id : Nat
  productOrderId : Nat
  influencerId : Nat
  influencerUserId : Nat
  agreedAmount : Int
  currency : Nat
  status : PStatus
deriving DecidableEq, Repr

/-- Row of `platformProductOrder` (only the fields the lifecycle reads). -/
structure OrderRow where
  id : Nat
  status : OStatus
deriving DecidableEq, Repr

/-- Row of `campaign` (only the fields the lifecycle reads). -/
structure CampaignRow where
  id : Nat
  productOrderId : Nat
  postType : Option Nat
deriving DecidableEq, Repr

/-- Row of `survey` (only the fields the lifecycle reads). -/
structure SurveyRow where
  id : Nat
  productOrderId : Nat
  surveyType : Option Nat
deriving DecidableEq, Repr

/-- Row of `campaignInfluencerPerformance`.  `idToPseudostring` is abstracted
as the influencer id itself (an injective encoding whose content no claim
observes). -/
structure PerfRow where
  campaignId : Nat
  influencerId : Nat
  submissionLink : String
  trackingCode : Nat
  websiteClick : Nat
deriving DecidableEq, Repr

/-- Row of `surveyResponse` (compound key questionId/optionId/userId). -/
structure RespRow where
  userId : Nat
  surveyId : Nat
  surveyQuestionId : Nat
  surveyOptionId : Nat
  surveyResponseText : String
deriving DecidableEq, Repr

/-- The database state visible to the lifecycle operations. -/
structure DB where
  users : List UserRow
  orders : List OrderRow
  campaigns : List CampaignRow
  surveys : List SurveyRow
  participants : List POI
  performances : List PerfRow
  surveyResponses : List RespRow
deriving DecidableEq, Repr

/-- Error taxonomy of the services.  `badRequest`/`notFound` carry the ids the
thrown message enumerates; `application` is the bare `ApplicationException`;
`runtimeError` models an uncontrolled runtime failure (a TypeError from
dereferencing `undefined`, an uncaught ORM throw, or an injected write/commit
failure). -/
inductive AppError
  | badRequest (ids : List Nat)
  | notFound (ids : List Nat)
  | forbidden
  | application
  | conflict
  | runtimeError
deriving DecidableEq, Repr

/-- Outcome of a service call: the returned value or the thrown error, in both
cases together with the durable database state after the call. -/
inductive Res (α : Type)
  | ok (val : α) (db : DB)
  | err (e : AppError) (db : DB)
deriving DecidableEq, Repr

/-- Database state observable after the call, whatever the outcome. -/
def Res.post {α : Type} : Res α → DB
  | .ok _ db => db
  | .err _ db => db

/-- Did the call succeed? -/
def Res.isOk {α : Type} : Res α → Bool
  | .ok _ _ => true
  | .err _ _ => false

/-- Did the call throw a BadRequest? -/
def Res.isBadRequest {α : Type} : Res α → Bool
  | .err (.badRequest _) _ => true
  | _ => false

/-- `findUniqueOrThrow` on the campaign id. -/
def findCampaign (db : DB) (cid : Nat) : Option CampaignRow :=
  (db.campaigns.filter (fun c => c.id == cid)).head?

/-- `findUniqueOrThrow` on the survey id. -/
def findSurvey (db : DB) (sid : Nat) : Option SurveyRow :=
  (db.surveys.filter (fun s => s.id == sid)).head?

/-- The joined `platformProductOrder` row of a campaign/survey. -/
def findOrder (db : DB) (oid : Nat) : Option OrderRow :=
  (db.orders.filter (fun o => o.id == oid)).head?

/-- The `platformProductOrderInfluencers` relation filtered by
`where: { productOrderId, influencer: { key: { in: ids } } }`. -/
def orderParticipants (db : DB) (oid : Nat) (key : POI → Nat) (ids : List Nat) : List POI :=
  db.participants.filter (fun r => r.productOrderId == oid && ids.contains (key r))

/-- The relation filtered by a single `influencerId`, then indexed with `[0]`. -/
def participantOf (db : DB) (oid inflId : Nat) : Option POI :=
  (db.participants.filter (fun r => r.productOrderId == oid && r.influencerId == inflId)).head?

/-- `influencerIds.filter(id => !found.find(r => key(r) === id))`: the requested
ids with no participant record. -/
def notInOrder (key : POI → Nat) (ids : List Nat) (found : List POI) : List Nat :=
  ids.filter (fun i => !(found.any (fun r => key r == i)))

/-- A `Promise.all` batch of `update({where:{id}, data:{status}})` calls:
rewrites exactly the rows whose id is listed. -/
def setStatusByIds (rowIds : List Nat) (s : PStatus) (ps : List POI) : List POI :=
  ps.map (fun r => if rowIds.contains r.id then { r with status := s } else r)

/-- `updateMany({where: pred, data:{status}})`: rewrites the matching rows and
returns the new table with the `BatchPayload.count`. -/
def updateManyStatus (pred : POI → Bool) (s : PStatus) (ps : List POI) : List POI × Nat :=
  (ps.map (fun r => if pred r then { r with status := s } else r), ps.countP pred)

/-- Does a participant row for the (productOrderId, influencerId) pair exist? -/
def hasPair (ps : List POI) (oid inflId : Nat) : Bool :=
  ps.any (fun r => r.productOrderId == oid && r.influencerId == inflId)

/-- A fresh autoincremented row id. -/
def freshPOIId (ps : List POI) : Nat :=
  (ps.map (fun r => r.id)).foldr Nat.max 0 + 1

/-- prisma `upsert` on the `PlatformProductOrderInfluencerIdentifier`
compound key: update the existing row in place, or create a fresh one. -/
def upsertPOI (oid inflId : Nat) (mk : Nat → POI) (upd : POI → POI) (ps : List POI) : List POI :=
  if hasPair ps oid inflId then
    ps.map (fun r => if r.productOrderId == oid && r.influencerId == inflId then upd r else r)
  else ps ++ [mk (freshPOIId ps)]

/-- `user.findMany({where: {id: {in: ids}}})`. -/
def usersByIds (db : DB) (ids : List Nat) : List UserRow :=
  db.users.filter (fun u => ids.contains u.id)

/-- The requested ids that resolved to no user row. -/
def notExistingUsers (ids : List Nat) (found : List UserRow) : List Nat :=
  ids.filter (fun i => !(found.any (fun u => u.id == i)))

/-- `user.influencer.influencerCampaignAmounts[0]` for the campaign's post
type: the influencer row together with the desired amount, `none` when the
user is not an influencer or has no amount declared for the type. -/
def desiredCampaignAmount (u : UserRow) (pt : Nat) : Option (InfluencerRow × Int) :=
  match u.influencer with
  | none => none
  | some infl =>
    match (infl.campaignAmounts.filter (fun a => a.typ == pt)).head? with
    | none => none
    | some a => some (infl, a.desiredAmount)

/-- `user.influencer.influencerSurveyAmounts[0]` for the survey's type. -/
def desiredSurveyAmount (u : UserRow) (st : Nat) : Option (InfluencerRow × Int) :=
  match u.influencer with
  | none => none
  | some infl =>
    match (infl.surveyAmounts.filter (fun a => a.typ == st)).head? with
    | none => none
    | some a => some (infl, a.desiredAmount)

/-- The `Promise.all` batch of upserts of `addInfluencers`: one upsert per
resolved user, creating at status Added with the desired amount and the
account currency, or updating amount and currency in place. -/
def addUpsertAll (oid : Nat) (amtOf : UserRow → Option (InfluencerRow × Int))
    (us : List UserRow) (ps : List POI) : List POI :=
  us.foldl (fun acc u =>
    match amtOf u with
    | none => acc
    | some (infl, amt) =>
      upsertPOI oid infl.id
        (fun rid =>
          { id := rid, productOrderId := oid, influencerId := infl.id,
            influencerUserId := infl.userId, agreedAmount := amt,
            currency := u.currency, status := .Added })
        (fun r => { r with agreedAmount := amt, currency := u.currency })
        acc) ps

/-- The shared validation boilerplate of the batch operations: first the
"not in the campaign/survey" BadRequest, then the "doesn't have valid state"
BadRequest, and only then the write. -/
def batchGuard {α : Type} (notIn invalid : List Nat) (okRes : Res α) (db : DB) : Res α :=
  if !notIn.isEmpty then .err (.badRequest notIn) db
  else if !invalid.isEmpty then .err (.badRequest invalid) db
  else okRes

namespace Campaign

/-- CampaignService.addInfluencers.  The `Promise.all` batch of upserts is
modelled as one atomic pass; a user lacking an influencer profile or an amount
for the post type (the source comment expects these defined and would raise a
TypeError) aborts before any write. -/
def addInfluencers (campaignId : Nat) (influencerIds : List Nat) (db : DB) : Res Unit :=
  match findCampaign db campaignId with
  | none => .err .runtimeError db
  | some c =>
    match findOrder db c.productOrderId with
    | none => .err .runtimeError db
    | some o =>
      if OStatus.Finished.toNat ≤ o.status.toNat then .err .forbidden db
      else
        match c.postType with
        | none => .err (.badRequest []) db
        | some pt =>
          let foundUsers := usersByIds db influencerIds
          let missing := notExistingUsers influencerIds foundUsers
          if !missing.isEmpty then .err (.notFound missing) db
          else if foundUsers.any (fun u => (desiredCampaignAmount u pt).isNone) then
            .err .runtimeError db
          else
            let ps2 := addUpsertAll c.productOrderId
              (fun u => desiredCampaignAmount u pt) foundUsers db.participants
            .ok () { db with participants := ps2 }

/-- CampaignService.inviteInfluencers.  The invalid-status BadRequest carries
the offending participants (their influencer ids here; the source interpolates
the records into the message). -/
def inviteInfluencers (campaignId : Nat) (influencerIds : List Nat) (db : DB) : Res Unit :=
  match findCampaign db campaignId with
  | none => .err .runtimeError db
  | some c =>
    let found := orderParticipants db c.productOrderId POI.influencerId influencerIds
    let notIn := notInOrder POI.influencerId influencerIds found
    let invalid := found.filter
      (fun r => !([PStatus.Added, PStatus.Invited].contains r.status))
    let ps2 := setStatusByIds (found.map (fun r => r.id)) .Invited db.participants
    batchGuard notIn (invalid.map (fun r => r.influencerId))
      (.ok () { db with participants := ps2 }) db

/-- CampaignService.acceptInvitation. -/
def acceptInvitation (campaignId : Nat) (u : UserRow) (db : DB) : Res Unit :=
  match u.influencer with
  | none => .err (.badRequest [u.id]) db
  | some infl =>
    match findCampaign db campaignId with
    | none => .err .runtimeError db
    | some c =>
      match participantOf db c.productOrderId infl.id with
      | none => .err (.badRequest [u.id]) db
      | some p =>
        if p.status != .Invited then .err (.badRequest [u.id]) db
        else
          let ps2 := setStatusByIds [p.id] .Matching db.participants
          .ok () { db with participants := ps2 }

/-- CampaignService.declineInvitation. -/
def declineInvitation (campaignId : Nat) (u : UserRow) (db : DB) : Res Unit :=
  match u.influencer with
  | none => .err (.badRequest [u.id]) db
  | some infl =>
    match findCampaign db campaignId with
    | none => .err .runtimeError db
    | some c =>
      match participantOf db c.productOrderId infl.id with
      | none => .err (.badRequest [u.id]) db
      | some p =>
        if p.status != .Invited then .err (.badRequest [u.id]) db
        else
          let ps2 := setStatusByIds [p.id] .Declined db.participants
          .ok () { db with participants := ps2 }

/-- The pre-application filter of CampaignService.removeInfluencers. -/
def removePred1 (oid : Nat) (ids : List Nat) (r : POI) : Bool :=
  r.productOrderId == oid && ids.contains r.influencerId &&
    [PStatus.Added, PStatus.Invited, PStatus.Matching].contains r.status

/-- The post-application filter of CampaignService.removeInfluencers. -/
def removePred2 (oid : Nat) (ids : List Nat) (r : POI) : Bool :=
  r.productOrderId == oid && ids.contains r.influencerId &&
    [PStatus.ToBeSubmitted, PStatus.ToBeApproved, PStatus.Approved,
      PStatus.ToBePaid, PStatus.Paid].contains r.status

/-- CampaignService.removeInfluencers: validates membership, then the two
bucket `updateMany` writes, returning the summed count. -/
def removeInfluencers (campaignId : Nat) (influencerIds : List Nat) (db : DB) : Res Nat :=
  match findCampaign db campaignId with
  | none => .err .runtimeError db
  | some c =>
    let found := orderParticipants db c.productOrderId POI.influencerId influencerIds
    let notIn := notInOrder POI.influencerId influencerIds found
    let s1 := updateManyStatus (removePred1 c.productOrderId influencerIds) .NotSelected
      db.participants
    let s2 := updateManyStatus (removePred2 c.productOrderId influencerIds) .Removed s1.1
    batchGuard notIn [] (.ok (s1.2 + s2.2) { db with participants := s2.1 }) db

/-- CampaignService.removeInfluencerSelf.  When the caller has no participant
record, `platformProductOrderInfluencers[0]` is `undefined` and reading
`.influencerId` throws before any guard fires. -/
def removeInfluencerSelf (campaignId : Nat) (u : UserRow) (db : DB) : Res Unit :=
  match u.influencer with
  | none => .err (.badRequest [u.id]) db
  | some infl =>
    match findCampaign db campaignId with
    | none => .err .runtimeError db
    | some c =>
      match participantOf db c.productOrderId infl.id with
      | none => .err .runtimeError db
      | some p =>
        if infl.id != p.influencerId || p.status.toNat < PStatus.Invited.toNat then
          .err .application db
        else if p.status == .Invited then .err .forbidden db
        else
          let ps2 := setStatusByIds [p.id] .Withdrawn db.participants
          .ok () { db with participants := ps2 }

/-- CampaignService.confirmMatch (filters by the influencer's `userId`). -/
def confirmMatch (campaignId : Nat) (influencerIds : List Nat) (db : DB) : Res Unit :=
  match findCampaign db campaignId with
  | none => .err .runtimeError db
  | some c =>
    let found := orderParticipants db c.productOrderId POI.influencerUserId influencerIds
    let notIn := notInOrder POI.influencerUserId influencerIds found
    let invalid := found.filter (fun r => r.status != .Matching)
    let ps2 := setStatusByIds (found.map (fun r => r.id)) .ToBeSubmitted db.participants
    batchGuard notIn (invalid.map (fun r => r.influencerUserId))
      (.ok () { db with participants := ps2 }) db

/-- `campaignInfluencerPerformance.upsert` on (campaignId, influencerId). -/
def upsertPerf (campaignId inflId : Nat) (link : String) (perfs : List PerfRow) : List PerfRow :=
  if perfs.any (fun p => p.campaignId == campaignId && p.influencerId == inflId) then
    perfs.map (fun p =>
      if p.campaignId == campaignId && p.influencerId == inflId then
        { p with submissionLink := link }
      else p)
  else
    let fresh : PerfRow :=
      { campaignId := campaignId, influencerId := inflId, submissionLink := link,
        trackingCode := inflId, websiteClick := 0 }
    perfs ++ [fresh]

/-- CampaignService.submitInfluencerData.  Both writes run on the transaction
client; `upsertOk` injects a failure of the performance upsert, in which case
the transaction rolls back and the pre-call state is durable.  As in the
source, a missing participant record crashes on reading `.status` before the
status guard. -/
def submitInfluencerData (upsertOk : Bool) (campaignId : Nat) (u : UserRow)
    (link : String) (db : DB) : Res Unit :=
  match u.influencer with
  | none => .err (.badRequest [u.id]) db
  | some infl =>
    match findCampaign db campaignId with
    | none => .err .runtimeError db
    | some c =>
      match participantOf db c.productOrderId infl.id with
      | none => .err .runtimeError db
      | some p =>
        if !([PStatus.ToBeSubmitted, PStatus.NotApproved].contains p.status) then
          .err .forbidden db
        else if upsertOk then
          let ps2 := setStatusByIds [p.id] .ToBeApproved db.participants
          let pf2 := upsertPerf campaignId infl.id link db.performances
          .ok () { db with participants := ps2, performances := pf2 }
        else .err .runtimeError db

/-- CampaignService.approveSubmission: validates the named subset, then
`updateMany({where: { productOrderId }, data: { status: Approved }})` — the
write is filtered by the order only, not by status or by the named ids. -/
def approveSubmission (campaignId : Nat) (influencerIds : List Nat) (db : DB) : Res Nat :=
  match findCampaign db campaignId with
  | none => .err .runtimeError db
  | some c =>
    let found := orderParticipants db c.productOrderId POI.influencerUserId influencerIds
    let notIn := notInOrder POI.influencerUserId influencerIds found
    let invalid := found.filter
      (fun r => !([PStatus.ToBeApproved, PStatus.NotApproved].contains r.status))
    let w := updateManyStatus (fun r => r.productOrderId == c.productOrderId) .Approved
      db.participants
    batchGuard notIn (invalid.map (fun r => r.influencerUserId))
      (.ok w.2 { db with participants := w.1 }) db

/-- CampaignService.disapproveSubmission: validates the named subset (exactly
ToBeApproved), then the same order-wide `updateMany` to NotApproved. -/
def disapproveSubmission (campaignId : Nat) (influencerIds : List Nat) (db : DB) : Res Unit :=
  match findCampaign db campaignId with
  | none => .err .runtimeError db
  | some c =>
    let found := orderParticipants db c.productOrderId POI.influencerUserId influencerIds
    let notIn := notInOrder POI.influencerUserId influencerIds found
    let invalid := found.filter (fun r => r.status != .ToBeApproved)
    let w := updateManyStatus (fun r => r.productOrderId == c.productOrderId) .NotApproved
      db.participants
    batchGuard notIn (invalid.map (fun r => r.influencerUserId))
      (.ok () { db with participants := w.1 }) db

/-- CampaignService.finishCampaign.  The bulk `updateMany` filters on
`status: Approved` only (no productOrderId) and runs on the transaction
client; the order-status update is issued on `this.prismaService`, outside the
transaction.  `orderUpdateOk` injects a failure of that non-transactional
update (the callback then rejects and the transaction rolls back);
`commitOk` injects a failure of the transaction commit itself (the
transactional write rolls back, the non-transactional one persists). -/
def finishCampaign (campaignId : Nat) (orderUpdateOk commitOk : Bool) (db : DB) : Res Unit :=
  match findCampaign db campaignId with
  | none => .err .runtimeError db
  | some c =>
    match findOrder db c.productOrderId with
    | none => .err .runtimeError db
    | some o =>
      if o.status != .OnGoing then .err .forbidden db
      else if OStatus.Finished.toNat < o.status.toNat then .err .forbidden db
      else
        let txParts := (updateManyStatus (fun r => r.status == .Approved) .ToBePaid
          db.participants).1
        if !orderUpdateOk then .err .runtimeError db
        else
          let ords := db.orders.map (fun w =>
            if w.id == c.productOrderId then { w with status := OStatus.Finished } else w)
          let durable := { db with orders := ords }
          if commitOk then .ok () { durable with participants := txParts }
          else .err .runtimeError durable

end Campaign

namespace Survey

/-- SurveysService.addInfluencers (same shape as the campaign variant, reading
`surveyType` and `influencerSurveyAmounts`). -/
def addInfluencers (surveyId : Nat) (influencerIds : List Nat) (db : DB) : Res Unit :=
  match findSurvey db surveyId with
  | none => .err .runtimeError db
  | some s =>
    match findOrder db s.productOrderId with
    | none => .err .runtimeError db
    | some o =>
      if OStatus.Finished.toNat ≤ o.status.toNat then .err .forbidden db
      else
        match s.surveyType with
        | none => .err (.badRequest []) db
        | some st =>
          let foundUsers := usersByIds db influencerIds
          let missing := notExistingUsers influencerIds foundUsers
          if !missing.isEmpty then .err (.notFound missing) db
          else if foundUsers.any (fun u => (desiredSurveyAmount u st).isNone) then
            .err .runtimeError db
          else
            let ps2 := addUpsertAll s.productOrderId
              (fun u => desiredSurveyAmount u st) foundUsers db.participants
            .ok () { db with participants := ps2 }

/-- SurveysService.inviteInfluencers. -/
def inviteInfluencers (surveyId : Nat) (influencerIds : List Nat) (db : DB) : Res Unit :=
  match findSurvey db surveyId with
  | none => .err .runtimeError db
  | some s =>
    let found := orderParticipants db s.productOrderId POI.influencerId influencerIds
    let notIn := notInOrder POI.influencerId influencerIds found
    let invalid := found.filter
      (fun r => !([PStatus.Added, PStatus.Invited].contains r.status))
    let ps2 := setStatusByIds (found.map (fun r => r.id)) .Invited db.participants
    batchGuard notIn (invalid.map (fun r => r.influencerId))
      (.ok () { db with participants := ps2 }) db

/-- SurveysService.acceptInvitation: the next state is ToBeAnswered — surveys
skip the Matching step. -/
def acceptInvitation (surveyId : Nat) (u : UserRow) (db : DB) : Res Unit :=
  match u.influencer with
  | none => .err (.badRequest [u.id]) db
  | some infl =>
    match findSurvey db surveyId with
    | none => .err .runtimeError db
    | some s =>
      match participantOf db s.productOrderId infl.id with
      | none => .err (.badRequest [u.id]) db
      | some p =>
        if p.status != .Invited then .err (.badRequest [u.id]) db
        else
          let ps2 := setStatusByIds [p.id] .ToBeAnswered db.participants
          .ok () { db with participants := ps2 }

/-- SurveysService.declineInvitation. -/
def declineInvitation (surveyId : Nat) (u : UserRow) (db : DB) : Res Unit :=
  match u.influencer with
  | none => .err (.badRequest [u.id]) db
  | some infl =>
    match findSurvey db surveyId with
    | none => .err .runtimeError db
    | some s =>
      match participantOf db s.productOrderId infl.id with
      | none => .err (.badRequest [u.id]) db
      | some p =>
        if p.status != .Invited then .err (.badRequest [u.id]) db
        else
          let ps2 := setStatusByIds [p.id] .Declined db.participants
          .ok () { db with participants := ps2 }

/-- The pre-application filter of SurveysService.removeInfluencers (no
Matching step for surveys). -/
def removePred1 (oid : Nat) (ids : List Nat) (r : POI) : Bool :=
  r.productOrderId == oid && ids.contains r.influencerId &&
    [PStatus.Added, PStatus.Invited].contains r.status

/-- The post-application filter of SurveysService.removeInfluencers. -/
def removePred2 (oid : Nat) (ids : List Nat) (r : POI) : Bool :=
  r.productOrderId == oid && ids.contains r.influencerId &&
    [PStatus.ToBeAnswered, PStatus.ToBeApproved, PStatus.Approved,
      PStatus.ToBePaid, PStatus.Paid].contains r.status

/-- SurveysService.removeInfluencers. -/
def removeInfluencers (surveyId : Nat) (influencerIds : List Nat) (db : DB) : Res Nat :=
  match findSurvey db surveyId with
  | none => .err .runtimeError db
  | some s =>
    let found := orderParticipants db s.productOrderId POI.influencerId influencerIds
    let notIn := notInOrder POI.influencerId influencerIds found
    let s1 := updateManyStatus (removePred1 s.productOrderId influencerIds) .NotSelected
      db.participants
    let s2 := updateManyStatus (removePred2 s.productOrderId influencerIds) .Removed s1.1
    batchGuard notIn [] (.ok (s1.2 + s2.2) { db with participants := s2.1 }) db

/-- SurveysService.removeInfluencerSelf (same undefined-dereference as the
campaign variant when the caller has no participant record). -/
def removeInfluencerSelf (surveyId : Nat) (u : UserRow) (db : DB) : Res Unit :=
  match u.influencer with
  | none => .err (.badRequest [u.id]) db
  | some infl =>
    match findSurvey db surveyId with
    | none => .err .runtimeError db
    | some s =>
      match participantOf db s.productOrderId infl.id with
      | none => .err .runtimeError db
      | some p =>
        if infl.id != p.influencerId || p.status.toNat < PStatus.Invited.toNat then
          .err .application db
        else if p.status == .Invited then .err .forbidden db
        else
          let ps2 := setStatusByIds [p.id] .Withdrawn db.participants
          .ok () { db with participants := ps2 }

/-- `surveyResponse.upsert` on (questionId, optionId, userId). -/
def upsertResp (surveyId userId qId optId : Nat) (txt : String)
    (rs : List RespRow) : List RespRow :=
  if rs.any (fun w => w.surveyQuestionId == qId && w.surveyOptionId == optId &&
      w.userId == userId) then
    rs.map (fun w =>
      if w.surveyQuestionId == qId && w.surveyOptionId == optId && w.userId == userId then
        { w with surveyResponseText := txt }
      else w)
  else
    let fresh : RespRow :=
      { userId := userId, surveyId := surveyId, surveyQuestionId := qId,
        surveyOptionId := optId, surveyResponseText := txt }
    rs ++ [fresh]

/-- SurveysService.submitSurveyResult.  Both writes run on the transaction
client; `upsertOk` injects a failure of the response upsert (rolled back
together).  A missing participant record crashes on reading `.status`. -/
def submitSurveyResult (upsertOk : Bool) (surveyId : Nat) (u : UserRow)
    (qId optId : Nat) (txt : String) (db : DB) : Res Unit :=
  match u.influencer with
  | none => .err (.badRequest [u.id]) db
  | some infl =>
    match findSurvey db surveyId with
    | none => .err .runtimeError db
    | some s =>
      match participantOf db s.productOrderId infl.id with
      | none => .err .runtimeError db
      | some p =>
        if !([PStatus.ToBeAnswered, PStatus.NotApproved].contains p.status) then
          .err .forbidden db
        else if upsertOk then
          let ps2 := setStatusByIds [p.id] .ToBeApproved db.participants
          let rs2 := upsertResp surveyId u.id qId optId txt db.surveyResponses
          .ok () { db with participants := ps2, surveyResponses := rs2 }
        else .err .runtimeError db

/-- SurveysService.approveSurveyResult: validates the named subset, then the
order-wide `updateMany` (filtered by productOrderId only) to Approved. -/
def approveSurveyResult (surveyId : Nat) (influencerIds : List Nat) (db : DB) : Res Nat :=
  match findSurvey db surveyId with
  | none => .err .runtimeError db
  | some s =>
    let found := orderParticipants db s.productOrderId POI.influencerUserId influencerIds
    let notIn := notInOrder POI.influencerUserId influencerIds found
    let invalid := found.filter
      (fun r => !([PStatus.ToBeApproved, PStatus.NotApproved].contains r.status))
    let w := updateManyStatus (fun r => r.productOrderId == s.productOrderId) .Approved
      db.participants
    batchGuard notIn (invalid.map (fun r => r.influencerUserId))
      (.ok w.2 { db with participants := w.1 }) db

/-- SurveysService.disapproveSurveyResult: validates the named subset (exactly
ToBeApproved), then the order-wide `updateMany` to NotApproved. -/
def disapproveSurveyResult (surveyId : Nat) (influencerIds : List Nat) (db : DB) : Res Nat :=
  match findSurvey db surveyId with
  | none => .err .runtimeError db
  | some s =>
    let found := orderParticipants db s.productOrderId POI.influencerUserId influencerIds
    let notIn := notInOrder POI.influencerUserId influencerIds found
    let invalid := found.filter (fun r => r.status != .ToBeApproved)
    let w := updateManyStatus (fun r => r.productOrderId == s.productOrderId) .NotApproved
      db.participants
    batchGuard notIn (invalid.map (fun r => r.influencerUserId))
      (.ok w.2 { db with participants := w.1 }) db

/-- SurveysService.finishSurvey: same structure as finishCampaign, including
the unscoped bulk filter and the non-transactional survey update. -/
def finishSurvey (surveyId : Nat) (orderUpdateOk commitOk : Bool) (db : DB) : Res Unit :=
  match findSurvey db surveyId with
  | none => .err .runtimeError db
  | some s =>
    match findOrder db s.productOrderId with
    | none => .err .runtimeError db
    | some o =>
      if o.status != .OnGoing then .err .forbidden db
      else if OStatus.Finished.toNat < o.status.toNat then .err .forbidden db
      else
        let txParts := (updateManyStatus (fun r => r.status == .Approved) .ToBePaid
          db.participants).1
        if !orderUpdateOk then .err .runtimeError db
        else
          let ords := db.orders.map (fun w =>
            if w.id == s.productOrderId then { w with status := OStatus.Finished } else w)
          let durable := { db with orders := ords }
          if commitOk then .ok () { durable with participants := txParts }
          else .err .runtimeError durable

end Survey

namespace PPOrder

/-- Argument object of PlatformProductOrderService.addInfluencers. -/
structure AddInfluencersDto where
  productOrderId : Nat
  influencerId : Nat
deriving DecidableEq, Repr

/-- PlatformProductOrderService.addInfluencers: `findFirstOrThrow` the user by
`influencer.id`, `findFirstOrThrow` any campaign amount of the influencer (no
type filter), then a bare `create`; the surrounding `.catch` translates every
failure inside the transaction — including the uniqueness violation of a
duplicate add — into Conflict.  The created row copies `user.status` into the
participant status untyped; modelled through the ordinal decoding. -/
def addInfluencers (dto : AddInfluencersDto) (db : DB) : Res Unit :=
  match (db.users.filter (fun u =>
      match u.influencer with
      | some i => i.id == dto.influencerId
      | none => false)).head? with
  | none => .err .conflict db
  | some u =>
    match u.influencer with
    | none => .err .conflict db
    | some infl =>
      match infl.campaignAmounts.head? with
      | none => .err .conflict db
      | some a =>
        if hasPair db.participants dto.productOrderId dto.influencerId then
          .err .conflict db
        else
          let fresh : POI :=
            { id := freshPOIId db.participants, productOrderId := dto.productOrderId,
              influencerId := dto.influencerId, influencerUserId := u.id,
              agreedAmount := a.desiredAmount, currency := u.currency,
              status := PStatus.fromOrdinal u.ustatus }
          .ok () { db with participants := db.participants ++ [fresh] }

end PPOrder

/-! Helper lemmas about the embedding. -/

theorem mem_of_head?_eq {α : Type} {l : List α} {a : α} (h : l.head? = some a) : a ∈ l := by
  cases l with
  | nil => simp at h
  | cons b bs => simp only [List.head?_cons, Option.some.injEq] at h; simp [h]

theorem filter_ne_nil_of_mem {α : Type} {l : List α} {p : α → Bool} {a : α}
    (ha : a ∈ l) (hp : p a = true) : l.filter p ≠ [] :=
  List.ne_nil_of_mem (List.mem_filter.mpr ⟨ha, hp⟩)

theorem batchGuard_notIn {α : Type} {notIn invalid : List Nat} {r : Res α} {db : DB}
    (h : notIn ≠ []) : batchGuard notIn invalid r db = .err (.badRequest notIn) db := by
  obtain ⟨x, xs, hx⟩ := List.exists_cons_of_ne_nil h
  subst hx; rfl

theorem batchGuard_invalid {α : Type} {notIn invalid : List Nat} {r : Res α} {db : DB}
    (h1 : notIn = []) (h2 : invalid ≠ []) :
    batchGuard notIn invalid r db = .err (.badRequest invalid) db := by
  subst h1
  obtain ⟨x, xs, hx⟩ := List.exists_cons_of_ne_nil h2
  subst hx; rfl

theorem batchGuard_ok {α : Type} {notIn invalid : List Nat} {r : Res α} {db : DB}
    (h1 : notIn = []) (h2 : invalid = []) : batchGuard notIn invalid r db = r := by
  subst h1; subst h2; rfl

theorem participantOf_spec {db : DB} {oid inflId : Nat} {p : POI}
    (h : participantOf db oid inflId = some p) :
    p ∈ db.participants ∧ p.productOrderId = oid ∧ p.influencerId = inflId := by
  have hm := mem_of_head?_eq h
  have := List.mem_filter.mp hm
  refine ⟨this.1, ?_, ?_⟩
  · have := this.2
    simp only [Bool.and_eq_true, beq_iff_eq] at this
    exact this.1
  · have := this.2
    simp only [Bool.and_eq_true, beq_iff_eq] at this
    exact this.2

/-! Concrete data used by the witnesses and counterexamples. -/

/-- An influencer user (user id 5, influencer id 55, desired campaign amount 7
for post type 0, desired survey amount 9 for survey type 0, currency 1). -/
def u5 : UserRow := ⟨5, 1, 0, some ⟨55, 5, [⟨0, 7⟩], [⟨0, 9⟩]⟩⟩

/-- An influencer user with no participant record anywhere. -/
def u9 : UserRow := ⟨9, 1, 0, some ⟨99, 9, [], []⟩⟩

/-- One campaign (id 10) and one survey (id 20) sharing order 1 (OnGoing),
with user 5's influencer added as the only participant. -/
def dbW : DB :=
  { users := [u5], orders := [⟨1, .OnGoing⟩],
    campaigns := [⟨10, 1, some 0⟩], surveys := [⟨20, 1, some 0⟩],
    participants := [⟨101, 1, 55, 5, 7, 1, .Added⟩],
    performances := [], surveyResponses := [] }

/-! Claim theorems. -/

/-- C10: when the calling influencer is not a participant of the order,
`removeInfluencerSelf` and the submit operations of both services read `[0]`
of the empty participant list and dereference its fields before any guard can
fire, so the call aborts with an uncontrolled runtime error (not a controlled
participant-not-found BadRequest) and the state is unchanged. -/
theorem C10_nonparticipant_crashes
    (db : DB) (u : UserRow) (infl : InfluencerRow) (cid sid qId optId : Nat)
    (c : CampaignRow) (s : SurveyRow) (link txt : String)
    (hinf : u.influencer = some infl)
    (hc : findCampaign db cid = some c)
    (hs : findSurvey db sid = some s)
    (hpc : participantOf db c.productOrderId infl.id = none)
    (hps : participantOf db s.productOrderId infl.id = none) :
    Campaign.removeInfluencerSelf cid u db = .err .runtimeError db ∧
    Campaign.submitInfluencerData true cid u link db = .err .runtimeError db ∧
    Survey.removeInfluencerSelf sid u db = .err .runtimeError db ∧
    Survey.submitSurveyResult true sid u qId optId txt db = .err .runtimeError db := by
  refine ⟨?_, ?_, ?_, ?_⟩ <;>
    simp only [Campaign.removeInfluencerSelf, Campaign.submitInfluencerData,
      Survey.removeInfluencerSelf, Survey.submitSurveyResult, hinf, hc, hs, hpc, hps]

/-- Witness for C10 at a concrete state: user 9 participates nowhere. -/
theorem C10_nonparticipant_crashes_witness :
    Campaign.removeInfluencerSelf 10 u9 dbW = .err .runtimeError dbW ∧
    Survey.submitSurveyResult true 20 u9 3 4 "t" dbW = .err .runtimeError dbW := by
  have h := C10_nonparticipant_crashes dbW u9 ⟨99, 9, [], []⟩ 10 20 3 4
    ⟨10, 1, some 0⟩ ⟨20, 1, some 0⟩ "x" "t"
    (by rfl) (by rfl) (by rfl) (by rfl) (by rfl)
  exact ⟨h.1, h.2.2.2⟩

/-- C8: `removeInfluencerSelf` fails when the caller is not a participant
(with the uncontrolled runtime error of the missing-record dereference) and
fails with the bare ApplicationException when the participant status is below
Invited; it fails with the distinct Forbidden error when the status is exactly
Invited; in every other case it transitions the caller's record to Withdrawn.
Both services behave identically. -/
theorem C8_removeInfluencerSelf_cases
    (db : DB) (u : UserRow) (infl : InfluencerRow) (cid sid : Nat)
    (c : CampaignRow) (s : SurveyRow)
    (hinf : u.influencer = some infl)
    (hc : findCampaign db cid = some c)
    (hs : findSurvey db sid = some s) :
    (participantOf db c.productOrderId infl.id = none →
      Campaign.removeInfluencerSelf cid u db = .err .runtimeError db) ∧
    (∀ p, participantOf db c.productOrderId infl.id = some p →
      (p.status.toNat < PStatus.Invited.toNat →
        Campaign.removeInfluencerSelf cid u db = .err .application db) ∧
      (p.status = .Invited →
        Campaign.removeInfluencerSelf cid u db = .err .forbidden db) ∧
      (PStatus.Invited.toNat ≤ p.status.toNat → p.status ≠ .Invited →
        Campaign.removeInfluencerSelf cid u db
          = .ok () { db with participants := setStatusByIds [p.id] .Withdrawn db.participants })) ∧
    (participantOf db s.productOrderId infl.id = none →
      Survey.removeInfluencerSelf sid u db = .err .runtimeError db) ∧
    (∀ p, participantOf db s.productOrderId infl.id = some p →
      (p.status.toNat < PStatus.Invited.toNat →
        Survey.removeInfluencerSelf sid u db = .err .application db) ∧
      (p.status = .Invited →
        Survey.removeInfluencerSelf sid u db = .err .forbidden db) ∧
      (PStatus.Invited.toNat ≤ p.status.toNat → p.status ≠ .Invited →
        Survey.removeInfluencerSelf sid u db
          = .ok () { db with participants := setStatusByIds [p.id] .Withdrawn db.participants })) := by
  refine ⟨?_, ?_, ?_, ?_⟩
  · intro hp
    simp only [Campaign.removeInfluencerSelf, hinf, hc, hp]
  · intro p hp
    have hid : p.influencerId = infl.id := (participantOf_spec hp).2.2
    refine ⟨?_, ?_, ?_⟩
    · intro hlt
      have hcond : (infl.id != p.influencerId
          || decide (p.status.toNat < PStatus.Invited.toNat)) = true := by
        simp only [Bool.or_eq_true, decide_eq_true_eq]
        exact Or.inr hlt
      simp only [Campaign.removeInfluencerSelf, hinf, hc, hp, hcond, if_true]
    · intro heq
      have hcond : (infl.id != p.influencerId
          || decide (p.status.toNat < PStatus.Invited.toNat)) = false := by
        simp [hid, heq, PStatus.toNat]
      simp only [Campaign.removeInfluencerSelf, hinf, hc, hp, hcond,
        Bool.false_eq_true, if_false]
      simp only [heq, beq_self_eq_true, if_true]
    · intro hge hne
      have hcond : (infl.id != p.influencerId
          || decide (p.status.toNat < PStatus.Invited.toNat)) = false := by
        simp only [Bool.or_eq_false_iff, bne_eq_false_iff_eq, decide_eq_false_iff_not]
        exact ⟨hid.symm, Nat.not_lt.mpr hge⟩
      have hbeq : (p.status == PStatus.Invited) = false := by
        simp [hne]
      simp only [Campaign.removeInfluencerSelf, hinf, hc, hp, hcond,
        Bool.false_eq_true, if_false, hbeq]
  · intro hp
    simp only [Survey.removeInfluencerSelf, hinf, hs, hp]
  · intro p hp
    have hid : p.influencerId = infl.id := (participantOf_spec hp).2.2
    refine ⟨?_, ?_, ?_⟩
    · intro hlt
      have hcond : (infl.id != p.influencerId
          || decide (p.status.toNat < PStatus.Invited.toNat)) = true := by
        simp only [Bool.or_eq_true, decide_eq_true_eq]
        exact Or.inr hlt
      simp only [Survey.removeInfluencerSelf, hinf, hs, hp, hcond, if_true]
    · intro heq
      have hcond : (infl.id != p.influencerId
          || decide (p.status.toNat < PStatus.Invited.toNat)) = false := by
        simp [hid, heq, PStatus.toNat]
      simp only [Survey.removeInfluencerSelf, hinf, hs, hp, hcond,
        Bool.false_eq_true, if_false]
      simp only [heq, beq_self_eq_true, if_true]
    · intro hge hne
      have hcond : (infl.id != p.influencerId
          || decide (p.status.toNat < PStatus.Invited.toNat)) = false := by
        simp only [Bool.or_eq_false_iff, bne_eq_false_iff_eq, decide_eq_false_iff_not]
        exact ⟨hid.symm, Nat.not_lt.mpr hge⟩
      have hbeq : (p.status == PStatus.Invited) = false := by
        simp [hne]
      simp only [Survey.removeInfluencerSelf, hinf, hs, hp, hcond,
        Bool.false_eq_true, if_false, hbeq]

/-- Participant of user 5 at Invited on order 1. -/
def dbWInvited : DB := { dbW with participants := [⟨101, 1, 55, 5, 7, 1, .Invited⟩] }

/-- Participant of user 5 at Matching on order 1. -/
def dbWMatching : DB := { dbW with participants := [⟨101, 1, 55, 5, 7, 1, .Matching⟩] }

/-- Witness for C8: at Added the self-removal raises the bare application
error, at Invited the distinct Forbidden, at Matching it moves to Withdrawn. -/
theorem C8_removeInfluencerSelf_cases_witness :
    Campaign.removeInfluencerSelf 10 u5 dbW = .err .application dbW ∧
    Campaign.removeInfluencerSelf 10 u5 dbWInvited = .err .forbidden dbWInvited ∧
    Campaign.removeInfluencerSelf 10 u5 dbWMatching
      = .ok () { dbWMatching with participants := [⟨101, 1, 55, 5, 7, 1, .Withdrawn⟩] } := by
  have h1 := C8_removeInfluencerSelf_cases dbW u5 ⟨55, 5, [⟨0, 7⟩], [⟨0, 9⟩]⟩ 10 20
    ⟨10, 1, some 0⟩ ⟨20, 1, some 0⟩ (by rfl) (by rfl) (by rfl)
  have h2 := C8_removeInfluencerSelf_cases dbWInvited u5 ⟨55, 5, [⟨0, 7⟩], [⟨0, 9⟩]⟩ 10 20
    ⟨10, 1, some 0⟩ ⟨20, 1, some 0⟩ (by rfl) (by rfl) (by rfl)
  have h3 := C8_removeInfluencerSelf_cases dbWMatching u5 ⟨55, 5, [⟨0, 7⟩], [⟨0, 9⟩]⟩ 10 20
    ⟨10, 1, some 0⟩ ⟨20, 1, some 0⟩ (by rfl) (by rfl) (by rfl)
  refine ⟨(h1.2.1 ⟨101, 1, 55, 5, 7, 1, .Added⟩ (by rfl)).1 (by decide),
    (h2.2.1 ⟨101, 1, 55, 5, 7, 1, .Invited⟩ (by rfl)).2.1 (by rfl),
    ?_⟩
  have := (h3.2.1 ⟨101, 1, 55, 5, 7, 1, .Matching⟩ (by rfl)).2.2 (by decide) (by decide)
  rw [this]
  rfl

/-- C9: invitations.  (1) When every requested influencer is a participant in
{Added, Invited}, `inviteInfluencers` succeeds and sets all of them to Invited
— so re-inviting an already-Invited participant succeeds and leaves Invited.
(2) From Invited, `acceptInvitation` moves to Matching on a campaign but to
ToBeAnswered on a survey, and `declineInvitation` moves to Declined on either.
(3) Once the status is no longer Invited (e.g. Declined), `acceptInvitation`
fails with BadRequest and changes nothing. -/
theorem C9_invitation_transitions
    (db : DB) (u : UserRow) (infl : InfluencerRow) (cid sid : Nat)
    (ids : List Nat) (c : CampaignRow) (s : SurveyRow)
    (hinf : u.influencer = some infl)
    (hc : findCampaign db cid = some c)
    (hs : findSurvey db sid = some s) :
    ((notInOrder POI.influencerId ids
        (orderParticipants db c.productOrderId POI.influencerId ids) = []) →
      ((orderParticipants db c.productOrderId POI.influencerId ids).filter
        (fun r => !([PStatus.Added, PStatus.Invited].contains r.status)) = []) →
      Campaign.inviteInfluencers cid ids db
        = .ok () { db with participants := setStatusByIds ((orderParticipants db c.productOrderId POI.influencerId ids).map (fun r => r.id)) .Invited db.participants }) ∧
    (∀ p, participantOf db c.productOrderId infl.id = some p →
      (p.status = .Invited →
        Campaign.acceptInvitation cid u db
          = .ok () { db with participants := setStatusByIds [p.id] .Matching db.participants }) ∧
      (p.status = .Invited →
        Campaign.declineInvitation cid u db
          = .ok () { db with participants := setStatusByIds [p.id] .Declined db.participants }) ∧
      (p.status ≠ .Invited →
        Campaign.acceptInvitation cid u db = .err (.badRequest [u.id]) db)) ∧
    (∀ p, participantOf db s.productOrderId infl.id = some p →
      (p.status = .Invited →
        Survey.acceptInvitation sid u db
          = .ok () { db with participants := setStatusByIds [p.id] .ToBeAnswered db.participants }) ∧
      (p.status = .Invited →
        Survey.declineInvitation sid u db
          = .ok () { db with participants := setStatusByIds [p.id] .Declined db.participants }) ∧
      (p.status ≠ .Invited →
        Survey.acceptInvitation sid u db = .err (.badRequest [u.id]) db)) := by
  refine ⟨?_, ?_, ?_⟩
  · intro hno hall
    simp only [Campaign.inviteInfluencers, hc]
    exact batchGuard_ok hno (by rw [hall]; rfl)
  · intro p hp
    refine ⟨?_, ?_, ?_⟩
    · intro heq
      simp only [Campaign.acceptInvitation, hinf, hc, hp, heq, bne_self_eq_false,
        Bool.false_eq_true, if_false]
    · intro heq
      simp only [Campaign.declineInvitation, hinf, hc, hp, heq, bne_self_eq_false,
        Bool.false_eq_true, if_false]
    · intro hne
      have hbne : (p.status != PStatus.Invited) = true := bne_iff_ne.mpr hne
      simp only [Campaign.acceptInvitation, hinf, hc, hp, hbne, if_true]
  · intro p hp
    refine ⟨?_, ?_, ?_⟩
    · intro heq
      simp only [Survey.acceptInvitation, hinf, hs, hp, heq, bne_self_eq_false,
        Bool.false_eq_true, if_false]
    · intro heq
      simp only [Survey.declineInvitation, hinf, hs, hp, heq, bne_self_eq_false,
        Bool.false_eq_true, if_false]
    · intro hne
      have hbne : (p.status != PStatus.Invited) = true := bne_iff_ne.mpr hne
      simp only [Survey.acceptInvitation, hinf, hs, hp, hbne, if_true]

/-- Participant of user 5 at Declined on order 1. -/
def dbWDeclined : DB := { dbW with participants := [⟨101, 1, 55, 5, 7, 1, .Declined⟩] }

/-- Witness for C9: inviting from Added and re-inviting from Invited both set
Invited; accepting from Invited yields Matching (campaign) and ToBeAnswered
(survey); declining yields Declined; accepting after Declined is BadRequest. -/
theorem C9_invitation_transitions_witness :
    Campaign.inviteInfluencers 10 [55] dbW
      = .ok () { dbW with participants := [⟨101, 1, 55, 5, 7, 1, .Invited⟩] } ∧
    Campaign.inviteInfluencers 10 [55] dbWInvited
      = .ok () { dbWInvited with participants := [⟨101, 1, 55, 5, 7, 1, .Invited⟩] } ∧
    Campaign.acceptInvitation 10 u5 dbWInvited
      = .ok () { dbWInvited with participants := [⟨101, 1, 55, 5, 7, 1, .Matching⟩] } ∧
    Survey.acceptInvitation 20 u5 dbWInvited
      = .ok () { dbWInvited with participants := [⟨101, 1, 55, 5, 7, 1, .ToBeAnswered⟩] } ∧
    Campaign.declineInvitation 10 u5 dbWInvited
      = .ok () { dbWInvited with participants := [⟨101, 1, 55, 5, 7, 1, .Declined⟩] } ∧
    Campaign.acceptInvitation 10 u5 dbWDeclined = .err (.badRequest [5]) dbWDeclined := by
  have h0 := C9_invitation_transitions dbW u5 ⟨55, 5, [⟨0, 7⟩], [⟨0, 9⟩]⟩ 10 20 [55]
    ⟨10, 1, some 0⟩ ⟨20, 1, some 0⟩ (by rfl) (by rfl) (by rfl)
  have h1 := C9_invitation_transitions dbWInvited u5 ⟨55, 5, [⟨0, 7⟩], [⟨0, 9⟩]⟩ 10 20 [55]
    ⟨10, 1, some 0⟩ ⟨20, 1, some 0⟩ (by rfl) (by rfl) (by rfl)
  have h2 := C9_invitation_transitions dbWDeclined u5 ⟨55, 5, [⟨0, 7⟩], [⟨0, 9⟩]⟩ 10 20 [55]
    ⟨10, 1, some 0⟩ ⟨20, 1, some 0⟩ (by rfl) (by rfl) (by rfl)
  refine ⟨?_, ?_, ?_, ?_, ?_, ?_⟩
  · rw [h0.1 (by rfl) (by rfl)]; rfl
  · rw [h1.1 (by rfl) (by rfl)]; rfl
  · rw [(h1.2.1 ⟨101, 1, 55, 5, 7, 1, .Invited⟩ (by rfl)).1 (by rfl)]; rfl
  · rw [(h1.2.2 ⟨101, 1, 55, 5, 7, 1, .Invited⟩ (by rfl)).1 (by rfl)]; rfl
  · rw [(h1.2.1 ⟨101, 1, 55, 5, 7, 1, .Invited⟩ (by rfl)).2.1 (by rfl)]; rfl
  · exact (h2.2.1 ⟨101, 1, 55, 5, 7, 1, .Declined⟩ (by rfl)).2.2 (by decide)

/-- Two campaign participants on order 1: user 1's influencer at Matching and
user 2's influencer at ToBeApproved. -/
def dbC2 : DB :=
  { users := [], orders := [⟨1, .OnGoing⟩],
    campaigns := [⟨10, 1, some 0⟩], surveys := [],
    participants := [⟨101, 1, 11, 1, 0, 0, .Matching⟩, ⟨102, 1, 22, 2, 0, 0, .ToBeApproved⟩],
    performances := [], surveyResponses := [] }

/-- C2 counterexample: `approveSubmission([2])` validates only user 2 but the
order-wide write also moves the Matching participant (user 1) to Approved,
refuting the claim that participants whose prior status did not allow the
transition are left unchanged. -/
theorem C2_counterexample :
    Campaign.approveSubmission 10 [2] dbC2
      = .ok 2 { dbC2 with participants := [⟨101, 1, 11, 1, 0, 0, .Approved⟩, ⟨102, 1, 22, 2, 0, 0, .Approved⟩] } := by
  decide

/-- C2 (amended): `approveSubmission` validates only the named influencers —
a non-participant id or a named participant outside {ToBeApproved, NotApproved}
raises BadRequest enumerating the offenders — and on success the write targets
the whole productOrderId filter: every participant of the order is set to
Approved regardless of prior status, while participants of other orders keep
theirs.  The survey service's approve behaves the same way. -/
theorem C2_approve_order_wide
    (db : DB) (cid sid : Nat) (ids : List Nat) (c : CampaignRow) (s : SurveyRow)
    (hc : findCampaign db cid = some c)
    (hs : findSurvey db sid = some s) :
    ((notInOrder POI.influencerUserId ids
        (orderParticipants db c.productOrderId POI.influencerUserId ids) ≠ []) →
      Campaign.approveSubmission cid ids db
        = .err (.badRequest (notInOrder POI.influencerUserId ids
            (orderParticipants db c.productOrderId POI.influencerUserId ids))) db) ∧
    ((notInOrder POI.influencerUserId ids
        (orderParticipants db c.productOrderId POI.influencerUserId ids) = []) →
      ((orderParticipants db c.productOrderId POI.influencerUserId ids).filter
        (fun r => !([PStatus.ToBeApproved, PStatus.NotApproved].contains r.status)) ≠ []) →
      Campaign.approveSubmission cid ids db
        = .err (.badRequest (((orderParticipants db c.productOrderId POI.influencerUserId ids).filter
            (fun r => !([PStatus.ToBeApproved, PStatus.NotApproved].contains r.status))).map
              (fun r => r.influencerUserId))) db) ∧
    ((notInOrder POI.influencerUserId ids
        (orderParticipants db c.productOrderId POI.influencerUserId ids) = []) →
      ((orderParticipants db c.productOrderId POI.influencerUserId ids).filter
        (fun r => !([PStatus.ToBeApproved, PStatus.NotApproved].contains r.status)) = []) →
      Campaign.approveSubmission cid ids db
        = .ok (db.participants.countP (fun r => r.productOrderId == c.productOrderId))
            { db with participants := db.participants.map (fun r => if r.productOrderId == c.productOrderId then { r with status := .Approved } else r) }) ∧
    ((notInOrder POI.influencerUserId ids
        (orderParticipants db s.productOrderId POI.influencerUserId ids) = []) →
      ((orderParticipants db s.productOrderId POI.influencerUserId ids).filter
        (fun r => !([PStatus.ToBeApproved, PStatus.NotApproved].contains r.status)) = []) →
      Survey.approveSurveyResult sid ids db
        = .ok (db.participants.countP (fun r => r.productOrderId == s.productOrderId))
            { db with participants := db.participants.map (fun r => if r.productOrderId == s.productOrderId then { r with status := .Approved } else r) }) := by
  refine ⟨?_, ?_, ?_, ?_⟩
  · intro hne
    simp only [Campaign.approveSubmission, hc]
    exact batchGuard_notIn hne
  · intro hno hval
    simp only [Campaign.approveSubmission, hc]
    exact batchGuard_invalid hno (fun hmap => hval (List.map_eq_nil_iff.mp hmap))
  · intro hno hval
    simp only [Campaign.approveSubmission, hc]
    rw [batchGuard_ok hno (by rw [hval]; rfl)]
    rfl
  · intro hno hval
    simp only [Survey.approveSurveyResult, hs]
    rw [batchGuard_ok hno (by rw [hval]; rfl)]
    rfl

/-- Participant of user 5 at ToBeApproved on order 1. -/
def dbWTBA : DB := { dbW with participants := [⟨101, 1, 55, 5, 7, 1, .ToBeApproved⟩] }

/-- Witness for the amended C2: approving the Added participant is BadRequest
naming user 5; approving the ToBeApproved participant approves order-wide. -/
theorem C2_approve_order_wide_witness :
    Campaign.approveSubmission 10 [5] dbW = .err (.badRequest [5]) dbW ∧
    Campaign.approveSubmission 10 [5] dbWTBA
      = .ok 1 { dbWTBA with participants := [⟨101, 1, 55, 5, 7, 1, .Approved⟩] } := by
  have h0 := C2_approve_order_wide dbW 10 20 [5] ⟨10, 1, some 0⟩ ⟨20, 1, some 0⟩
    (by rfl) (by rfl)
  have h1 := C2_approve_order_wide dbWTBA 10 20 [5] ⟨10, 1, some 0⟩ ⟨20, 1, some 0⟩
    (by rfl) (by rfl)
  constructor
  · rw [h0.2.1 (by rfl) (by decide)]
    decide
  · rw [h1.2.2.1 (by rfl) (by rfl)]
    rfl

/-- The two bucket writes of `removeInfluencers` commute into one pass:
a row caught by the pre-application bucket is set to NotSelected and cannot
match the post-application bucket afterwards; the buckets are disjoint. -/
theorem campaign_removePred2_update (oid : Nat) (ids : List Nat) (r : POI) :
    Campaign.removePred2 oid ids
      (if Campaign.removePred1 oid ids r = true then { r with status := .NotSelected } else r)
    = Campaign.removePred2 oid ids r := by
  by_cases h1 : Campaign.removePred1 oid ids r = true
  · rw [if_pos h1]
    have hA : Campaign.removePred2 oid ids { r with status := PStatus.NotSelected } = false := by
      simp [Campaign.removePred2]
    have hB : Campaign.removePred2 oid ids r = false := by
      rcases r with ⟨i, po, ii, iu, aa, cu, st⟩
      cases st <;> simp_all [Campaign.removePred1, Campaign.removePred2]
    rw [hA, hB]
  · rw [if_neg h1]

/-- Same for the survey buckets. -/
theorem survey_removePred2_update (oid : Nat) (ids : List Nat) (r : POI) :
    Survey.removePred2 oid ids
      (if Survey.removePred1 oid ids r = true then { r with status := .NotSelected } else r)
    = Survey.removePred2 oid ids r := by
  by_cases h1 : Survey.removePred1 oid ids r = true
  · rw [if_pos h1]
    have hA : Survey.removePred2 oid ids { r with status := PStatus.NotSelected } = false := by
      simp [Survey.removePred2]
    have hB : Survey.removePred2 oid ids r = false := by
      rcases r with ⟨i, po, ii, iu, aa, cu, st⟩
      cases st <;> simp_all [Survey.removePred1, Survey.removePred2]
    rw [hA, hB]
  · rw [if_neg h1]

/-- Fused table after the two campaign bucket writes. -/
theorem campaign_remove_participants (oid : Nat) (ids : List Nat) (l : List POI) :
    (updateManyStatus (Campaign.removePred2 oid ids) .Removed
      (updateManyStatus (Campaign.removePred1 oid ids) .NotSelected l).1).1
    = l.map (fun r =>
        if Campaign.removePred1 oid ids r then { r with status := .NotSelected }
        else if Campaign.removePred2 oid ids r then { r with status := .Removed } else r) := by
  simp only [updateManyStatus, List.map_map]
  apply List.map_congr_left
  intro r _
  by_cases h1 : Campaign.removePred1 oid ids r = true
  · have hA : Campaign.removePred2 oid ids { r with status := PStatus.NotSelected } = false := by
      simp [Campaign.removePred2]
    simp [h1, hA]
  · simp [h1]

/-- The second campaign bucket count is unaffected by the first write. -/
theorem campaign_remove_count2 (oid : Nat) (ids : List Nat) (l : List POI) :
    (updateManyStatus (Campaign.removePred2 oid ids) .Removed
      (updateManyStatus (Campaign.removePred1 oid ids) .NotSelected l).1).2
    = l.countP (Campaign.removePred2 oid ids) := by
  simp only [updateManyStatus]
  rw [List.countP_map]
  apply List.countP_congr
  intro r _
  rw [Function.comp_apply, campaign_removePred2_update oid ids r]

/-- Fused table after the two survey bucket writes. -/
theorem survey_remove_participants (oid : Nat) (ids : List Nat) (l : List POI) :
    (updateManyStatus (Survey.removePred2 oid ids) .Removed
      (updateManyStatus (Survey.removePred1 oid ids) .NotSelected l).1).1
    = l.map (fun r =>
        if Survey.removePred1 oid ids r then { r with status := .NotSelected }
        else if Survey.removePred2 oid ids r then { r with status := .Removed } else r) := by
  simp only [updateManyStatus, List.map_map]
  apply List.map_congr_left
  intro r _
  by_cases h1 : Survey.removePred1 oid ids r = true
  · have hA : Survey.removePred2 oid ids { r with status := PStatus.NotSelected } = false := by
      simp [Survey.removePred2]
    simp [h1, hA]
  · simp [h1]

/-- The second survey bucket count is unaffected by the first write. -/
theorem survey_remove_count2 (oid : Nat) (ids : List Nat) (l : List POI) :
    (updateManyStatus (Survey.removePred2 oid ids) .Removed
      (updateManyStatus (Survey.removePred1 oid ids) .NotSelected l).1).2
    = l.countP (Survey.removePred2 oid ids) := by
  simp only [updateManyStatus]
  rw [List.countP_map]
  apply List.countP_congr
  intro r _
  rw [Function.comp_apply, survey_removePred2_update oid ids r]

/-- C5: when every requested id is a participant, one `removeInfluencers`
call moves the named pre-application participants ({Added, Invited, Matching}
for campaigns, {Added, Invited} for surveys) to NotSelected, the named
post-application participants ({ToBeSubmitted/ToBeAnswered, ToBeApproved,
Approved, ToBePaid, Paid}) to Removed, leaves all other rows (other statuses,
unnamed influencers, other orders) untouched, and returns exactly the sum of
the two bucket counts. -/
theorem C5_remove_two_buckets
    (db : DB) (cid sid : Nat) (ids : List Nat) (c : CampaignRow) (s : SurveyRow)
    (hc : findCampaign db cid = some c)
    (hs : findSurvey db sid = some s) :
    ((notInOrder POI.influencerId ids
        (orderParticipants db c.productOrderId POI.influencerId ids) = []) →
      Campaign.removeInfluencers cid ids db
        = .ok (db.participants.countP (Campaign.removePred1 c.productOrderId ids)
              + db.participants.countP (Campaign.removePred2 c.productOrderId ids))
            { db with participants := db.participants.map (fun r => if Campaign.removePred1 c.productOrderId ids r then { r with status := .NotSelected } else if Campaign.removePred2 c.productOrderId ids r then { r with status := .Removed } else r) }) ∧
    ((notInOrder POI.influencerId ids
        (orderParticipants db s.productOrderId POI.influencerId ids) = []) →
      Survey.removeInfluencers sid ids db
        = .ok (db.participants.countP (Survey.removePred1 s.productOrderId ids)
              + db.participants.countP (Survey.removePred2 s.productOrderId ids))
            { db with participants := db.participants.map (fun r => if Survey.removePred1 s.productOrderId ids r then { r with status := .NotSelected } else if Survey.removePred2 s.productOrderId ids r then { r with status := .Removed } else r) }) := by
  constructor
  · intro hno
    simp only [Campaign.removeInfluencers, hc]
    rw [batchGuard_ok hno rfl]
    rw [campaign_remove_count2, campaign_remove_participants]
    rfl
  · intro hno
    simp only [Survey.removeInfluencers, hs]
    rw [batchGuard_ok hno rfl]
    rw [survey_remove_count2, survey_remove_participants]
    rfl

/-- Mixed statuses for the C5 witness: Added and Matching (pre-application),
Approved (post-application), Declined (neither bucket). -/
def dbR : DB :=
  { users := [], orders := [⟨1, .OnGoing⟩],
    campaigns := [⟨10, 1, some 0⟩], surveys := [⟨20, 1, some 0⟩],
    participants := [⟨101, 1, 11, 1, 0, 0, .Added⟩, ⟨102, 1, 22, 2, 0, 0, .Matching⟩,
                     ⟨103, 1, 33, 3, 0, 0, .Approved⟩, ⟨104, 1, 44, 4, 0, 0, .Declined⟩],
    performances := [], surveyResponses := [] }

/-- Witness for C5: two pre-application rows become NotSelected, the Approved
one becomes Removed, the Declined one is untouched, and the count is 2+1. -/
theorem C5_remove_two_buckets_witness :
    Campaign.removeInfluencers 10 [11, 22, 33, 44] dbR
      = .ok 3 { dbR with participants := [⟨101, 1, 11, 1, 0, 0, .NotSelected⟩, ⟨102, 1, 22, 2, 0, 0, .NotSelected⟩, ⟨103, 1, 33, 3, 0, 0, .Removed⟩, ⟨104, 1, 44, 4, 0, 0, .Declined⟩] } := by
  have h := C5_remove_two_buckets dbR 10 20 [11, 22, 33, 44] ⟨10, 1, some 0⟩ ⟨20, 1, some 0⟩
    (by rfl) (by rfl)
  rw [h.1 (by rfl)]
  decide

/-- Two OnGoing orders; campaign 10 lives on order 1; Approved participants
exist on both orders, plus a ToBeSubmitted one on order 1. -/
def dbC3 : DB :=
  { users := [], orders := [⟨1, .OnGoing⟩, ⟨2, .OnGoing⟩],
    campaigns := [⟨10, 1, some 0⟩], surveys := [],
    participants := [⟨101, 1, 11, 1, 0, 0, .Approved⟩, ⟨102, 2, 22, 2, 0, 0, .Approved⟩,
                     ⟨103, 1, 33, 3, 0, 0, .ToBeSubmitted⟩],
    performances := [], surveyResponses := [] }

/-- C3 (code bug): finishing campaign 10 marks its order Finished, moves its
Approved participant to ToBePaid and leaves its ToBeSubmitted participant
untouched — but the bulk update's filter is `{ status: Approved }` with no
productOrderId, so the Approved participant of the unrelated order 2 is moved
to ToBePaid as well, against the claimed frame condition. -/
theorem C3_finish_bulk_unscoped :
    Campaign.finishCampaign 10 true true dbC3
      = .ok () { dbC3 with orders := [⟨1, .Finished⟩, ⟨2, .OnGoing⟩], participants := [⟨101, 1, 11, 1, 0, 0, .ToBePaid⟩, ⟨102, 2, 22, 2, 0, 0, .ToBePaid⟩, ⟨103, 1, 33, 3, 0, 0, .ToBeSubmitted⟩] } := by
  decide

/-- One OnGoing order with campaign 10 and an Approved participant of user 5. -/
def dbC4 : DB :=
  { users := [u5], orders := [⟨1, .OnGoing⟩],
    campaigns := [⟨10, 1, some 0⟩], surveys := [],
    participants := [⟨101, 1, 55, 5, 7, 1, .Approved⟩],
    performances := [], surveyResponses := [] }

/-- Same order but the participant is at ToBeSubmitted, ready to submit. -/
def dbC4s : DB := { dbC4 with participants := [⟨101, 1, 55, 5, 7, 1, .ToBeSubmitted⟩] }

/-- C4 (code bug): `submitInfluencerData` is atomic — a failure of the second
write (the performance upsert) rolls back the status write, leaving the state
unchanged.  But in `finishCampaign` the order-status update is issued on
`this.prismaService` inside the `$transaction` callback, outside the
transaction: when the transaction fails at commit, the durable state has the
order Finished while the Approved participant was never moved to ToBePaid —
a partial effect, refuting all-or-nothing atomicity. -/
theorem C4_finish_not_atomic :
    Campaign.submitInfluencerData false 10 u5 "x" dbC4s = .err .runtimeError dbC4s ∧
    Campaign.finishCampaign 10 true false dbC4
      = .err .runtimeError { dbC4 with orders := [⟨1, .Finished⟩] } := by
  constructor
  · decide
  · decide

/-- C1 counterexample: for a campaign participant at Matching (outside
`submitData`'s source set {ToBeSubmitted, NotApproved}), the submit operation
fails with Forbidden, not with the BadRequest the claim asserts for every
transition operation. -/
theorem C1_counterexample :
    Campaign.submitInfluencerData true 10 u5 "x" dbWMatching = .err .forbidden dbWMatching := by
  decide

/-- C1 (amended): invoking a transition operation on a participant outside its
required source set never changes state, and the error kind depends on the
operation: BadRequest for invite/accept/decline/confirmMatch and for the
approve/disapprove validation, Forbidden for submitData, the bare
ApplicationException (below Invited) or Forbidden (exactly Invited) for
removeInfluencerSelf; removeInfluencers and finishOrder's bulk step do not
fail on out-of-set participants but leave them unchanged.  Both services
behave alike. -/
theorem C1_guard_errors
    (db : DB) (u : UserRow) (infl : InfluencerRow) (cid sid : Nat)
    (ids : List Nat) (c : CampaignRow) (s : SurveyRow) (link txt : String) (qId optId : Nat)
    (hinf : u.influencer = some infl)
    (hc : findCampaign db cid = some c)
    (hs : findSurvey db sid = some s) :
    -- campaign: inviteInfluencers on a participant outside {Added, Invited}
    ((notInOrder POI.influencerId ids
        (orderParticipants db c.productOrderId POI.influencerId ids) = []) →
      ∀ r ∈ orderParticipants db c.productOrderId POI.influencerId ids,
        ([PStatus.Added, PStatus.Invited].contains r.status) = false →
        (Campaign.inviteInfluencers cid ids db).isBadRequest = true ∧
        (Campaign.inviteInfluencers cid ids db).post = db) ∧
    -- campaign: accept/decline on a participant that is not Invited
    (∀ p, participantOf db c.productOrderId infl.id = some p → p.status ≠ .Invited →
      Campaign.acceptInvitation cid u db = .err (.badRequest [u.id]) db ∧
      Campaign.declineInvitation cid u db = .err (.badRequest [u.id]) db) ∧
    -- campaign: confirmMatch on a participant that is not Matching
    ((notInOrder POI.influencerUserId ids
        (orderParticipants db c.productOrderId POI.influencerUserId ids) = []) →
      ∀ r ∈ orderParticipants db c.productOrderId POI.influencerUserId ids,
        r.status ≠ .Matching →
        (Campaign.confirmMatch cid ids db).isBadRequest = true ∧
        (Campaign.confirmMatch cid ids db).post = db) ∧
    -- campaign: submitData outside {ToBeSubmitted, NotApproved} is Forbidden
    (∀ p, participantOf db c.productOrderId infl.id = some p →
      ([PStatus.ToBeSubmitted, PStatus.NotApproved].contains p.status) = false →
      Campaign.submitInfluencerData true cid u link db = .err .forbidden db) ∧
    -- campaign: approve outside {ToBeApproved, NotApproved} / disapprove outside {ToBeApproved}
    ((notInOrder POI.influencerUserId ids
        (orderParticipants db c.productOrderId POI.influencerUserId ids) = []) →
      ∀ r ∈ orderParticipants db c.productOrderId POI.influencerUserId ids,
        (([PStatus.ToBeApproved, PStatus.NotApproved].contains r.status) = false →
          (Campaign.approveSubmission cid ids db).isBadRequest = true ∧
          (Campaign.approveSubmission cid ids db).post = db) ∧
        (r.status ≠ .ToBeApproved →
          (Campaign.disapproveSubmission cid ids db).isBadRequest = true ∧
          (Campaign.disapproveSubmission cid ids db).post = db)) ∧
    -- campaign: removeInfluencerSelf below/at Invited fails without mutating
    (∀ p, participantOf db c.productOrderId infl.id = some p →
      (p.status.toNat < PStatus.Invited.toNat →
        Campaign.removeInfluencerSelf cid u db = .err .application db) ∧
      (p.status = .Invited →
        Campaign.removeInfluencerSelf cid u db = .err .forbidden db)) ∧
    -- campaign: removeInfluencers leaves out-of-bucket participants unchanged
    ((notInOrder POI.influencerId ids
        (orderParticipants db c.productOrderId POI.influencerId ids) = []) →
      ∀ r ∈ db.participants,
        Campaign.removePred1 c.productOrderId ids r = false →
        Campaign.removePred2 c.productOrderId ids r = false →
        (Campaign.removeInfluencers cid ids db).isOk = true ∧
        r ∈ (Campaign.removeInfluencers cid ids db).post.participants) ∧
    -- campaign: finishOrder's bulk step skips participants that are not Approved
    (∀ o, findOrder db c.productOrderId = some o → o.status = .OnGoing →
      (Campaign.finishCampaign cid true true db).post.participants
        = db.participants.map (fun r => if r.status == .Approved then { r with status := .ToBePaid } else r)) ∧
    -- survey mirrors
    ((notInOrder POI.influencerId ids
        (orderParticipants db s.productOrderId POI.influencerId ids) = []) →
      ∀ r ∈ orderParticipants db s.productOrderId POI.influencerId ids,
        ([PStatus.Added, PStatus.Invited].contains r.status) = false →
        (Survey.inviteInfluencers sid ids db).isBadRequest = true ∧
        (Survey.inviteInfluencers sid ids db).post = db) ∧
    (∀ p, participantOf db s.productOrderId infl.id = some p → p.status ≠ .Invited →
      Survey.acceptInvitation sid u db = .err (.badRequest [u.id]) db ∧
      Survey.declineInvitation sid u db = .err (.badRequest [u.id]) db) ∧
    (∀ p, participantOf db s.productOrderId infl.id = some p →
      ([PStatus.ToBeAnswered, PStatus.NotApproved].contains p.status) = false →
      Survey.submitSurveyResult true sid u qId optId txt db = .err .forbidden db) ∧
    ((notInOrder POI.influencerUserId ids
        (orderParticipants db s.productOrderId POI.influencerUserId ids) = []) →
      ∀ r ∈ orderParticipants db s.productOrderId POI.influencerUserId ids,
        (([PStatus.ToBeApproved, PStatus.NotApproved].contains r.status) = false →
          (Survey.approveSurveyResult sid ids db).isBadRequest = true ∧
          (Survey.approveSurveyResult sid ids db).post = db) ∧
        (r.status ≠ .ToBeApproved →
          (Survey.disapproveSurveyResult sid ids db).isBadRequest = true ∧
          (Survey.disapproveSurveyResult sid ids db).post = db)) ∧
    (∀ p, participantOf db s.productOrderId infl.id = some p →
      (p.status.toNat < PStatus.Invited.toNat →
        Survey.removeInfluencerSelf sid u db = .err .application db) ∧
      (p.status = .Invited →
        Survey.removeInfluencerSelf sid u db = .err .forbidden db)) ∧
    ((notInOrder POI.influencerId ids
        (orderParticipants db s.productOrderId POI.influencerId ids) = []) →
      ∀ r ∈ db.participants,
        Survey.removePred1 s.productOrderId ids r = false →
        Survey.removePred2 s.productOrderId ids r = false →
        (Survey.removeInfluencers sid ids db).isOk = true ∧
        r ∈ (Survey.removeInfluencers sid ids db).post.participants) ∧
    (∀ o, findOrder db s.productOrderId = some o → o.status = .OnGoing →
      (Survey.finishSurvey sid true true db).post.participants
        = db.participants.map (fun r => if r.status == .Approved then { r with status := .ToBePaid } else r)) := by
  refine ⟨?_, ?_, ?_, ?_, ?_, ?_, ?_, ?_, ?_, ?_, ?_, ?_, ?_, ?_, ?_⟩
  · intro hno r hr hbad
    have hne : (orderParticipants db c.productOrderId POI.influencerId ids).filter
        (fun r => !([PStatus.Added, PStatus.Invited].contains r.status)) ≠ [] :=
      filter_ne_nil_of_mem hr (by rw [hbad]; rfl)
    have hmapne : ((orderParticipants db c.productOrderId POI.influencerId ids).filter
        (fun r => !([PStatus.Added, PStatus.Invited].contains r.status))).map
          (fun r => r.influencerId) ≠ [] :=
      fun hmap => hne (List.map_eq_nil_iff.mp hmap)
    simp only [Campaign.inviteInfluencers, hc]
    rw [batchGuard_invalid hno hmapne]
    exact ⟨rfl, rfl⟩
  · intro p hp hne
    have hbne : (p.status != PStatus.Invited) = true := bne_iff_ne.mpr hne
    constructor
    · simp only [Campaign.acceptInvitation, hinf, hc, hp, hbne, if_true]
    · simp only [Campaign.declineInvitation, hinf, hc, hp, hbne, if_true]
  · intro hno r hr hne
    have hfe : (orderParticipants db c.productOrderId POI.influencerUserId ids).filter
        (fun r => r.status != .Matching) ≠ [] :=
      filter_ne_nil_of_mem hr (bne_iff_ne.mpr hne)
    have hmapne : ((orderParticipants db c.productOrderId POI.influencerUserId ids).filter
        (fun r => r.status != .Matching)).map (fun r => r.influencerUserId) ≠ [] :=
      fun hmap => hfe (List.map_eq_nil_iff.mp hmap)
    simp only [Campaign.confirmMatch, hc]
    rw [batchGuard_invalid hno hmapne]
    exact ⟨rfl, rfl⟩
  · intro p hp hbad
    simp only [Campaign.submitInfluencerData, hinf, hc, hp, hbad, Bool.not_false, if_true]
  · intro hno r hr
    constructor
    · intro hbad
      have hne : (orderParticipants db c.productOrderId POI.influencerUserId ids).filter
          (fun r => !([PStatus.ToBeApproved, PStatus.NotApproved].contains r.status)) ≠ [] :=
        filter_ne_nil_of_mem hr (by rw [hbad]; rfl)
      have hmapne : ((orderParticipants db c.productOrderId POI.influencerUserId ids).filter
          (fun r => !([PStatus.ToBeApproved, PStatus.NotApproved].contains r.status))).map
            (fun r => r.influencerUserId) ≠ [] :=
        fun hmap => hne (List.map_eq_nil_iff.mp hmap)
      simp only [Campaign.approveSubmission, hc]
      rw [batchGuard_invalid hno hmapne]
      exact ⟨rfl, rfl⟩
    · intro hne
      have hfe : (orderParticipants db c.productOrderId POI.influencerUserId ids).filter
          (fun r => r.status != .ToBeApproved) ≠ [] :=
        filter_ne_nil_of_mem hr (bne_iff_ne.mpr hne)
      have hmapne : ((orderParticipants db c.productOrderId POI.influencerUserId ids).filter
          (fun r => r.status != .ToBeApproved)).map (fun r => r.influencerUserId) ≠ [] :=
        fun hmap => hfe (List.map_eq_nil_iff.mp hmap)
      simp only [Campaign.disapproveSubmission, hc]
      rw [batchGuard_invalid hno hmapne]
      exact ⟨rfl, rfl⟩
  · intro p hp
    have hid : p.influencerId = infl.id := (participantOf_spec hp).2.2
    constructor
    · intro hlt
      have hcond : (infl.id != p.influencerId
          || decide (p.status.toNat < PStatus.Invited.toNat)) = true := by
        simp only [Bool.or_eq_true, decide_eq_true_eq]
        exact Or.inr hlt
      simp only [Campaign.removeInfluencerSelf, hinf, hc, hp, hcond, if_true]
    · intro heq
      have hcond : (infl.id != p.influencerId
          || decide (p.status.toNat < PStatus.Invited.toNat)) = false := by
        simp [hid, heq, PStatus.toNat]
      simp only [Campaign.removeInfluencerSelf, hinf, hc, hp, hcond,
        Bool.false_eq_true, if_false]
      simp only [heq, beq_self_eq_true, if_true]
  · intro hno r hr h1 h2
    constructor
    · simp only [Campaign.removeInfluencers, hc]
      rw [batchGuard_ok hno rfl]
      rfl
    · simp only [Campaign.removeInfluencers, hc]
      rw [batchGuard_ok hno rfl]
      simp only [Res.post]
      rw [campaign_remove_participants]
      have hstep : (if Campaign.removePred1 c.productOrderId ids r then ({ r with status := .NotSelected } : POI)
          else if Campaign.removePred2 c.productOrderId ids r then { r with status := .Removed } else r) = r := by
        rw [h1, h2]
        simp
      rw [← hstep]
      exact List.mem_map_of_mem _ hr
  · intro o ho hgo
    have h1 : (o.status != OStatus.OnGoing) = false := by simp [hgo]
    simp only [Campaign.finishCampaign, hc, ho, h1, Bool.false_eq_true, if_false, hgo]
    rw [if_neg (by decide : ¬ (OStatus.Finished.toNat < OStatus.OnGoing.toNat))]
    rfl
  · intro hno r hr hbad
    have hne : (orderParticipants db s.productOrderId POI.influencerId ids).filter
        (fun r => !([PStatus.Added, PStatus.Invited].contains r.status)) ≠ [] :=
      filter_ne_nil_of_mem hr (by rw [hbad]; rfl)
    have hmapne : ((orderParticipants db s.productOrderId POI.influencerId ids).filter
        (fun r => !([PStatus.Added, PStatus.Invited].contains r.status))).map
          (fun r => r.influencerId) ≠ [] :=
      fun hmap => hne (List.map_eq_nil_iff.mp hmap)
    simp only [Survey.inviteInfluencers, hs]
    rw [batchGuard_invalid hno hmapne]
    exact ⟨rfl, rfl⟩
  · intro p hp hne
    have hbne : (p.status != PStatus.Invited) = true := bne_iff_ne.mpr hne
    constructor
    · simp only [Survey.acceptInvitation, hinf, hs, hp, hbne, if_true]
    · simp only [Survey.declineInvitation, hinf, hs, hp, hbne, if_true]
  · intro p hp hbad
    simp only [Survey.submitSurveyResult, hinf, hs, hp, hbad, Bool.not_false, if_true]
  · intro hno r hr
    constructor
    · intro hbad
      have hne : (orderParticipants db s.productOrderId POI.influencerUserId ids).filter
          (fun r => !([PStatus.ToBeApproved, PStatus.NotApproved].contains r.status)) ≠ [] :=
        filter_ne_nil_of_mem hr (by rw [hbad]; rfl)
      have hmapne : ((orderParticipants db s.productOrderId POI.influencerUserId ids).filter
          (fun r => !([PStatus.ToBeApproved, PStatus.NotApproved].contains r.status))).map
            (fun r => r.influencerUserId) ≠ [] :=
        fun hmap => hne (List.map_eq_nil_iff.mp hmap)
      simp only [Survey.approveSurveyResult, hs]
      rw [batchGuard_invalid hno hmapne]
      exact ⟨rfl, rfl⟩
    · intro hne
      have hfe : (orderParticipants db s.productOrderId POI.influencerUserId ids).filter
          (fun r => r.status != .ToBeApproved) ≠ [] :=
        filter_ne_nil_of_mem hr (bne_iff_ne.mpr hne)
      have hmapne : ((orderParticipants db s.productOrderId POI.influencerUserId ids).filter
          (fun r => r.status != .ToBeApproved)).map (fun r => r.influencerUserId) ≠ [] :=
        fun hmap => hfe (List.map_eq_nil_iff.mp hmap)
      simp only [Survey.disapproveSurveyResult, hs]
      rw [batchGuard_invalid hno hmapne]
      exact ⟨rfl, rfl⟩
  · intro p hp
    have hid : p.influencerId = infl.id := (participantOf_spec hp).2.2
    constructor
    · intro hlt
      have hcond : (infl.id != p.influencerId
          || decide (p.status.toNat < PStatus.Invited.toNat)) = true := by
        simp only [Bool.or_eq_true, decide_eq_true_eq]
        exact Or.inr hlt
      simp only [Survey.removeInfluencerSelf, hinf, hs, hp, hcond, if_true]
    · intro heq
      have hcond : (infl.id != p.influencerId
          || decide (p.status.toNat < PStatus.Invited.toNat)) = false := by
        simp [hid, heq, PStatus.toNat]
      simp only [Survey.removeInfluencerSelf, hinf, hs, hp, hcond,
        Bool.false_eq_true, if_false]
      simp only [heq, beq_self_eq_true, if_true]
  · intro hno r hr h1 h2
    constructor
    · simp only [Survey.removeInfluencers, hs]
      rw [batchGuard_ok hno rfl]
      rfl
    · simp only [Survey.removeInfluencers, hs]
      rw [batchGuard_ok hno rfl]
      simp only [Res.post]
      rw [survey_remove_participants]
      have hstep : (if Survey.removePred1 s.productOrderId ids r then ({ r with status := .NotSelected } : POI)
          else if Survey.removePred2 s.productOrderId ids r then { r with status := .Removed } else r) = r := by
        rw [h1, h2]
        simp
      rw [← hstep]
      exact List.mem_map_of_mem _ hr
  · intro o ho hgo
    have h1 : (o.status != OStatus.OnGoing) = false := by simp [hgo]
    simp only [Survey.finishSurvey, hs, ho, h1, Bool.false_eq_true, if_false, hgo]
    rw [if_neg (by decide : ¬ (OStatus.Finished.toNat < OStatus.OnGoing.toNat))]
    rfl

/-- Witness for the amended C1 at concrete states: inviting the Matching
participant is a BadRequest no-op, submitting from Matching is Forbidden,
and the finish bulk step leaves the ToBeSubmitted participant of dbC3 alone. -/
theorem C1_guard_errors_witness :
    ((Campaign.inviteInfluencers 10 [55] dbWMatching).isBadRequest = true ∧
      (Campaign.inviteInfluencers 10 [55] dbWMatching).post = dbWMatching) ∧
    Campaign.submitInfluencerData true 10 u5 "x" dbWMatching = .err .forbidden dbWMatching := by
  have h := C1_guard_errors dbWMatching u5 ⟨55, 5, [⟨0, 7⟩], [⟨0, 9⟩]⟩ 10 20 [55]
    ⟨10, 1, some 0⟩ ⟨20, 1, some 0⟩ "x" "t" 3 4 (by rfl) (by rfl) (by rfl)
  refine ⟨h.1 (by rfl) ⟨101, 1, 55, 5, 7, 1, .Matching⟩ (by decide) (by decide), ?_⟩
  exact h.2.2.2.1 ⟨101, 1, 55, 5, 7, 1, .Matching⟩ (by rfl) (by decide)

/-- Characterisation of the `addInfluencers` upsert batch when no targeted
influencer is a participant yet: each resolved user appends one fresh row at
status Added carrying the desired amount and the account currency. -/
theorem addUpsertAll_fresh (oid : Nat) (amtOf : UserRow → Option (InfluencerRow × Int))
    (us : List UserRow) : ∀ (ps : List POI),
    (∀ u ∈ us, ∀ q, amtOf u = some q → hasPair ps oid q.1.id = false) →
    List.Pairwise (fun u v => ∀ q w, amtOf u = some q → amtOf v = some w → q.1.id ≠ w.1.id) us →
    ∃ rows, addUpsertAll oid amtOf us ps = ps ++ rows ∧
      rows.map (fun r => (r.productOrderId, r.influencerId, r.influencerUserId, r.status, r.agreedAmount, r.currency))
        = us.filterMap (fun u => (amtOf u).map (fun q => (oid, q.1.id, q.1.userId, PStatus.Added, q.2, u.currency))) := by
  induction us with
  | nil =>
    intro ps h1 hpw
    exact ⟨[], by simp [addUpsertAll], by simp⟩
  | cons u tl ih =>
    intro ps h1 hpw
    obtain ⟨hrel, hpw'⟩ := List.pairwise_cons.mp hpw
    cases hau : amtOf u with
    | none =>
      obtain ⟨rows, heq, hm⟩ := ih ps
        (fun v hv q hq => h1 v (List.mem_cons_of_mem _ hv) q hq) hpw'
      refine ⟨rows, ?_, ?_⟩
      · have hstep : addUpsertAll oid amtOf (u :: tl) ps = addUpsertAll oid amtOf tl ps := by
          simp [addUpsertAll, hau]
        rw [hstep, heq]
      · rw [hm]
        simp [hau]
    | some q =>
      have hnp : hasPair ps oid q.1.id = false := h1 u (List.mem_cons_self u tl) q hau
      have hstep : addUpsertAll oid amtOf (u :: tl) ps
          = addUpsertAll oid amtOf tl
            (ps ++ [⟨freshPOIId ps, oid, q.1.id, q.1.userId, q.2, u.currency, .Added⟩]) := by
        simp [addUpsertAll, hau, upsertPOI, hnp]
      have h1' : ∀ v ∈ tl, ∀ w, amtOf v = some w →
          hasPair (ps ++ [⟨freshPOIId ps, oid, q.1.id, q.1.userId, q.2, u.currency, .Added⟩])
            oid w.1.id = false := by
        intro v hv w hw
        have hpv : hasPair ps oid w.1.id = false := h1 v (List.mem_cons_of_mem _ hv) w hw
        have hne : q.1.id ≠ w.1.id := hrel v hv q w hau hw
        unfold hasPair at hpv ⊢
        rw [List.any_append, hpv]
        simp [hne]
      obtain ⟨rows, heq, hm⟩ := ih
        (ps ++ [⟨freshPOIId ps, oid, q.1.id, q.1.userId, q.2, u.currency, .Added⟩]) h1' hpw'
      refine ⟨⟨freshPOIId ps, oid, q.1.id, q.1.userId, q.2, u.currency, .Added⟩ :: rows, ?_, ?_⟩
      · rw [hstep, heq, List.append_assoc]
        rfl
      · simp only [List.map_cons, hm, List.filterMap_cons, hau, Option.map_some]
        rfl

/-- C6: `addInfluencers` requires the order's coarse status below Finished
(else Forbidden) and a defined post/survey type (else BadRequest); it fails
with NotFound enumerating the influencer ids that resolve to no user; on
success every resolved influencer not yet participating is upserted as a
fresh row at status Added with their pre-declared desired amount for the type
as agreedAmount and their account currency.  A duplicate concurrent add is
modelled by the row already existing when the bare `create` of
`PlatformProductOrderService.addInfluencers` runs: the uniqueness violation
is caught and translated to Conflict with no state change. -/
theorem C6_addInfluencers_contract
    (db : DB) (cid sid : Nat) (ids : List Nat) (c : CampaignRow) (s : SurveyRow)
    (oc os : OrderRow)
    (hc : findCampaign db cid = some c)
    (hs : findSurvey db sid = some s)
    (hoc : findOrder db c.productOrderId = some oc)
    (hos : findOrder db s.productOrderId = some os) :
    (OStatus.Finished.toNat ≤ oc.status.toNat →
      Campaign.addInfluencers cid ids db = .err .forbidden db) ∧
    (oc.status.toNat < OStatus.Finished.toNat → c.postType = none →
      Campaign.addInfluencers cid ids db = .err (.badRequest []) db) ∧
    (oc.status.toNat < OStatus.Finished.toNat → ∀ pt, c.postType = some pt →
      notExistingUsers ids (usersByIds db ids) ≠ [] →
      Campaign.addInfluencers cid ids db
        = .err (.notFound (notExistingUsers ids (usersByIds db ids))) db) ∧
    (oc.status.toNat < OStatus.Finished.toNat → ∀ pt, c.postType = some pt →
      notExistingUsers ids (usersByIds db ids) = [] →
      (∀ u ∈ usersByIds db ids, (desiredCampaignAmount u pt).isSome = true) →
      (∀ u ∈ usersByIds db ids, ∀ q, desiredCampaignAmount u pt = some q →
        hasPair db.participants c.productOrderId q.1.id = false) →
      List.Pairwise (fun u v => ∀ q w, desiredCampaignAmount u pt = some q →
        desiredCampaignAmount v pt = some w → q.1.id ≠ w.1.id) (usersByIds db ids) →
      ∃ rows, Campaign.addInfluencers cid ids db
          = .ok () { db with participants := db.participants ++ rows } ∧
        rows.map (fun r => (r.productOrderId, r.influencerId, r.influencerUserId, r.status, r.agreedAmount, r.currency))
          = (usersByIds db ids).filterMap (fun u => (desiredCampaignAmount u pt).map (fun q => (c.productOrderId, q.1.id, q.1.userId, PStatus.Added, q.2, u.currency)))) ∧
    (OStatus.Finished.toNat ≤ os.status.toNat →
      Survey.addInfluencers sid ids db = .err .forbidden db) ∧
    (os.status.toNat < OStatus.Finished.toNat → ∀ st, s.surveyType = some st →
      notExistingUsers ids (usersByIds db ids) = [] →
      (∀ u ∈ usersByIds db ids, (desiredSurveyAmount u st).isSome = true) →
      (∀ u ∈ usersByIds db ids, ∀ q, desiredSurveyAmount u st = some q →
        hasPair db.participants s.productOrderId q.1.id = false) →
      List.Pairwise (fun u v => ∀ q w, desiredSurveyAmount u st = some q →
        desiredSurveyAmount v st = some w → q.1.id ≠ w.1.id) (usersByIds db ids) →
      ∃ rows, Survey.addInfluencers sid ids db
          = .ok () { db with participants := db.participants ++ rows } ∧
        rows.map (fun r => (r.productOrderId, r.influencerId, r.influencerUserId, r.status, r.agreedAmount, r.currency))
          = (usersByIds db ids).filterMap (fun u => (desiredSurveyAmount u st).map (fun q => (s.productOrderId, q.1.id, q.1.userId, PStatus.Added, q.2, u.currency)))) ∧
    (∀ dto : PPOrder.AddInfluencersDto,
      hasPair db.participants dto.productOrderId dto.influencerId = true →
      PPOrder.addInfluencers dto db = .err .conflict db) := by
  refine ⟨?_, ?_, ?_, ?_, ?_, ?_, ?_⟩
  · intro hge
    simp only [Campaign.addInfluencers, hc, hoc]
    rw [if_pos hge]
  · intro hlt hpt
    simp only [Campaign.addInfluencers, hc, hoc, hpt]
    rw [if_neg (Nat.not_le.mpr hlt)]
  · intro hlt pt hpt hmiss
    simp only [Campaign.addInfluencers, hc, hoc, hpt]
    rw [if_neg (Nat.not_le.mpr hlt)]
    obtain ⟨x, xs, hx⟩ := List.exists_cons_of_ne_nil hmiss
    rw [hx]
    rfl
  · intro hlt pt hpt hmiss hsome hfresh hpw
    have hany : ((usersByIds db ids).any (fun u => (desiredCampaignAmount u pt).isNone)) = false := by
      rw [List.any_eq_false]
      intro v hv
      have := hsome v hv
      simp only [Option.isNone, Bool.not_eq_true]
      cases hq : desiredCampaignAmount v pt with
      | none => rw [hq] at this; simp at this
      | some w => rfl
    obtain ⟨rows, heq, hm⟩ := addUpsertAll_fresh c.productOrderId
      (fun v => desiredCampaignAmount v pt) (usersByIds db ids) db.participants hfresh hpw
    refine ⟨rows, ?_, hm⟩
    simp only [Campaign.addInfluencers, hc, hoc, hpt]
    rw [if_neg (Nat.not_le.mpr hlt)]
    simp only [hmiss, List.isEmpty_nil, Bool.not_true, Bool.false_eq_true, if_false, hany, heq]
  · intro hge
    simp only [Survey.addInfluencers, hs, hos]
    rw [if_pos hge]
  · intro hlt st hst hmiss hsome hfresh hpw
    have hany : ((usersByIds db ids).any (fun u => (desiredSurveyAmount u st).isNone)) = false := by
      rw [List.any_eq_false]
      intro v hv
      have := hsome v hv
      simp only [Option.isNone, Bool.not_eq_true]
      cases hq : desiredSurveyAmount v st with
      | none => rw [hq] at this; simp at this
      | some w => rfl
    obtain ⟨rows, heq, hm⟩ := addUpsertAll_fresh s.productOrderId
      (fun v => desiredSurveyAmount v st) (usersByIds db ids) db.participants hfresh hpw
    refine ⟨rows, ?_, hm⟩
    simp only [Survey.addInfluencers, hs, hos, hst]
    rw [if_neg (Nat.not_le.mpr hlt)]
    simp only [hmiss, List.isEmpty_nil, Bool.not_true, Bool.false_eq_true, if_false, hany, heq]
  · intro dto hdup
    simp only [PPOrder.addInfluencers]
    cases hu : (db.users.filter (fun u =>
        match u.influencer with
        | some i => i.id == dto.influencerId
        | none => false)).head? with
    | none => rfl
    | some u =>
      cases hui : u.influencer with
      | none => simp [hui]
      | some infl =>
        cases ha : infl.campaignAmounts.head? with
        | none => simp [hui, ha]
        | some a => simp [hui, ha, hdup]

/-- Empty participant table; user 5 exists, campaign 10 and survey 20 on
order 1 in preparation. -/
def dbAdd : DB :=
  { users := [u5], orders := [⟨1, .InPreparation⟩],
    campaigns := [⟨10, 1, some 0⟩], surveys := [⟨20, 1, some 0⟩],
    participants := [], performances := [], surveyResponses := [] }

/-- Witness for C6: adding influencer user 5 to campaign 10 succeeds and
creates the single participant row (influencer 55, Added, amount 7,
currency 1); a duplicate pp-order add is Conflict. -/
theorem C6_addInfluencers_contract_witness :
    (Campaign.addInfluencers 10 [5] dbAdd).isOk = true ∧
    PPOrder.addInfluencers ⟨1, 11⟩ dbR = .err .conflict dbR := by
  have h := C6_addInfluencers_contract dbAdd 10 20 [5] ⟨10, 1, some 0⟩ ⟨20, 1, some 0⟩
    ⟨1, .InPreparation⟩ ⟨1, .InPreparation⟩ (by rfl) (by rfl) (by rfl) (by rfl)
  constructor
  · obtain ⟨rows, heq, hm⟩ := h.2.2.2.1 (by decide) 0 (by rfl) (by rfl) (by decide)
      (fun u hu q hq => rfl)
      (by rw [show usersByIds dbAdd [5] = [u5] from rfl]; exact List.pairwise_singleton _ _)
    rw [heq]
    rfl
  · have h2 := C6_addInfluencers_contract dbR 10 20 [5] ⟨10, 1, some 0⟩ ⟨20, 1, some 0⟩
      ⟨1, .OnGoing⟩ ⟨1, .OnGoing⟩ (by rfl) (by rfl) (by rfl) (by rfl)
    exact h2.2.2.2.2.2.2 ⟨1, 11⟩ (by rfl)

/-- User 5's influencer already participates in order 1 with agreedAmount 5
and currency 2, while the directory declares desired amount 7, currency 1. -/
def dbC7 : DB :=
  { users := [u5], orders := [⟨1, .OnGoing⟩],
    campaigns := [⟨10, 1, some 0⟩], surveys := [⟨20, 1, some 0⟩],
    participants := [⟨101, 1, 55, 5, 5, 2, .Invited⟩],
    performances := [], surveyResponses := [] }

/-- C7 counterexample: the claim asserts that for every (orderId, influencerId)
pair a second `addInfluencers` call updates agreedAmount and currency in
place; `PlatformProductOrderService.addInfluencers` instead uses a bare
`create` and translates the duplicate into Conflict, leaving the stored
amount 5 and currency 2 even though the directory says 7 and 1. -/
theorem C7_counterexample :
    PPOrder.addInfluencers ⟨1, 55⟩ dbC7 = .err .conflict dbC7 ∧
    (PPOrder.addInfluencers ⟨1, 55⟩ dbC7).post.participants.map
      (fun r => (r.agreedAmount, r.currency)) = [(5, 2)] := by
  constructor <;> decide

/-- C7 (amended): the campaign and survey `addInfluencers` are idempotent on
the participant set — when the (order, influencer) pair already exists, the
upsert updates that row's agreedAmount and currency in place, keeps its
status, creates no duplicate, and the number of rows for the pair is
preserved; the `PlatformProductOrderService` variant instead fails with
Conflict on a duplicate add and leaves the state unchanged (so the pair still
has exactly one row, but without the in-place update). -/
theorem C7_add_idempotent
    (db : DB) (cid sid iid : Nat) (u : UserRow) (c : CampaignRow) (s : SurveyRow)
    (oc os : OrderRow)
    (hc : findCampaign db cid = some c)
    (hoc : findOrder db c.productOrderId = some oc)
    (hgc : oc.status.toNat < OStatus.Finished.toNat)
    (hs : findSurvey db sid = some s)
    (hos : findOrder db s.productOrderId = some os)
    (hgs : os.status.toNat < OStatus.Finished.toNat)
    (hu : usersByIds db [iid] = [u]) (hid : u.id = iid) :
    (∀ pt, c.postType = some pt → ∀ q, desiredCampaignAmount u pt = some q →
      hasPair db.participants c.productOrderId q.1.id = true →
      Campaign.addInfluencers cid [iid] db
        = .ok () { db with participants := db.participants.map (fun r => if r.productOrderId == c.productOrderId && r.influencerId == q.1.id then { r with agreedAmount := q.2, currency := u.currency } else r) } ∧
      (Campaign.addInfluencers cid [iid] db).post.participants.countP
          (fun r => r.productOrderId == c.productOrderId && r.influencerId == q.1.id)
        = db.participants.countP
            (fun r => r.productOrderId == c.productOrderId && r.influencerId == q.1.id)) ∧
    (∀ st, s.surveyType = some st → ∀ q, desiredSurveyAmount u st = some q →
      hasPair db.participants s.productOrderId q.1.id = true →
      Survey.addInfluencers sid [iid] db
        = .ok () { db with participants := db.participants.map (fun r => if r.productOrderId == s.productOrderId && r.influencerId == q.1.id then { r with agreedAmount := q.2, currency := u.currency } else r) } ∧
      (Survey.addInfluencers sid [iid] db).post.participants.countP
          (fun r => r.productOrderId == s.productOrderId && r.influencerId == q.1.id)
        = db.participants.countP
            (fun r => r.productOrderId == s.productOrderId && r.influencerId == q.1.id)) ∧
    (∀ dto : PPOrder.AddInfluencersDto,
      hasPair db.participants dto.productOrderId dto.influencerId = true →
      PPOrder.addInfluencers dto db = .err .conflict db) := by
  refine ⟨?_, ?_, ?_⟩
  · intro pt hpt q hq hpair
    have hmiss : notExistingUsers [iid] [u] = [] := by simp [notExistingUsers, hid]
    have hany : ([u].any (fun v => (desiredCampaignAmount v pt).isNone)) = false := by
      simp [hq]
    have hone : addUpsertAll c.productOrderId (fun v => desiredCampaignAmount v pt) [u]
        db.participants
        = db.participants.map (fun r => if r.productOrderId == c.productOrderId && r.influencerId == q.1.id then { r with agreedAmount := q.2, currency := u.currency } else r) := by
      simp [addUpsertAll, hq, upsertPOI, hpair]
    have hmain : Campaign.addInfluencers cid [iid] db
        = .ok () { db with participants := db.participants.map (fun r => if r.productOrderId == c.productOrderId && r.influencerId == q.1.id then { r with agreedAmount := q.2, currency := u.currency } else r) } := by
      simp only [Campaign.addInfluencers, hc, hoc, hpt]
      rw [if_neg (Nat.not_le.mpr hgc)]
      simp only [hu, hmiss, List.isEmpty_nil, Bool.not_true, Bool.false_eq_true, if_false,
        hany, hone]
    refine ⟨hmain, ?_⟩
    rw [hmain]
    simp only [Res.post]
    rw [List.countP_map]
    apply List.countP_congr
    intro r _
    rw [Function.comp_apply]
    by_cases hm : (r.productOrderId == c.productOrderId && r.influencerId == q.1.id) = true
    · simp [hm]
    · simp only [Bool.not_eq_true] at hm
      simp [hm]
  · intro st hst q hq hpair
    have hmiss : notExistingUsers [iid] [u] = [] := by simp [notExistingUsers, hid]
    have hany : ([u].any (fun v => (desiredSurveyAmount v st).isNone)) = false := by
      simp [hq]
    have hone : addUpsertAll s.productOrderId (fun v => desiredSurveyAmount v st) [u]
        db.participants
        = db.participants.map (fun r => if r.productOrderId == s.productOrderId && r.influencerId == q.1.id then { r with agreedAmount := q.2, currency := u.currency } else r) := by
      simp [addUpsertAll, hq, upsertPOI, hpair]
    have hmain : Survey.addInfluencers sid [iid] db
        = .ok () { db with participants := db.participants.map (fun r => if r.productOrderId == s.productOrderId && r.influencerId == q.1.id then { r with agreedAmount := q.2, currency := u.currency } else r) } := by
      simp only [Survey.addInfluencers, hs, hos, hst]
      rw [if_neg (Nat.not_le.mpr hgs)]
      simp only [hu, hmiss, List.isEmpty_nil, Bool.not_true, Bool.false_eq_true, if_false,
        hany, hone]
    refine ⟨hmain, ?_⟩
    rw [hmain]
    simp only [Res.post]
    rw [List.countP_map]
    apply List.countP_congr
    intro r _
    rw [Function.comp_apply]
    by_cases hm : (r.productOrderId == s.productOrderId && r.influencerId == q.1.id) = true
    · simp [hm]
    · simp only [Bool.not_eq_true] at hm
      simp [hm]
  · intro dto hdup
    simp only [PPOrder.addInfluencers]
    cases hu2 : (db.users.filter (fun u =>
        match u.influencer with
        | some i => i.id == dto.influencerId
        | none => false)).head? with
    | none => rfl
    | some v =>
      cases hui : v.influencer with
      | none => simp [hui]
      | some infl =>
        cases ha : infl.campaignAmounts.head? with
        | none => simp [hui, ha]
        | some a => simp [hui, ha, hdup]

/-- Witness for the amended C7: re-adding influencer user 5 to campaign 10
updates the existing row to amount 7 and currency 1 in place, keeping status
Invited and exactly one row; the pp-order variant yields Conflict instead. -/
theorem C7_add_idempotent_witness :
    Campaign.addInfluencers 10 [5] dbC7
      = .ok () { dbC7 with participants := [⟨101, 1, 55, 5, 7, 1, .Invited⟩] } ∧
    PPOrder.addInfluencers ⟨1, 55⟩ dbC7 = .err .conflict dbC7 := by
  have h := C7_add_idempotent dbC7 10 20 5 u5 ⟨10, 1, some 0⟩ ⟨20, 1, some 0⟩
    ⟨1, .OnGoing⟩ ⟨1, .OnGoing⟩ (by rfl) (by rfl) (by decide) (by rfl) (by rfl)
    (by decide) (by rfl) (by rfl)
  constructor
  · rw [(h.1 0 (by rfl) ⟨⟨55, 5, [⟨0, 7⟩], [⟨0, 9⟩]⟩, 7⟩ (by rfl) (by rfl)).1]
    rfl
  · exact h.2.2 ⟨1, 55⟩ (by rfl)

end MediaBack
